import Mathlib

/-! Otto quadruped robot: servo layer, gait primitives and action executor.

A shallow embedding of

* `src/main/boards/otto-robotcu/otto_movements.cc` (class `Otto`: servo writes and the
  dog-style gait primitives), and
* `src/main/boards/otto-robot/otto_controller.cc` (class `OttoController`: the action queue,
  the executor task `ActionTask`, the tool handlers and `StopAll`).

Conventions of the embedding.

* A gait primitive never reads the robot state: it is a fixed sequence of calls to
  `ServoWrite`, `vTaskDelay` and the rest flag.  It is embedded as the list of those calls
  (`List Cmd`), in program order.  `Otto.run` replays such a list on the servo
  state with the embedded `ServoWrite`.
* `int` values of the gait library are mathematical integers.  The `float angle` of
  `ServoWrite` carries integer values at every call site of the gait library and is embedded
  as an integer; inside `ServoWrite` the sum of the two `int` members wraps at 32 bits
  (`wrapInt32`) and every `float` value is rounded to a 24 bit significand (`roundToFloat`).
* The executor counter `idle_no_action_ticks_` (`int`) and `idle_emoji_tick_` (`uint32_t`)
  are incremented with explicit 32 bit wrap-around.
-/

namespace OttoRobot

/-! ## Servo layer (`otto_movements.cc`) -/

/-- Modelled from the spec: the header `otto_movements.h` is not part of the sources; the
robot has four leg channels (LF, RF, LB, RB). -/
def SERVO_COUNT : Int := 4

/-- Modelled from the spec: channel number of the left front leg (the `self.dog.test_servo`
tool documents `0=LF, 1=RF, 2=LB, 3=RB`). -/
def SERVO_LF : Int := 0

/-- Modelled from the spec: channel number of the right front leg. -/
def SERVO_RF : Int := 1

/-- Modelled from the spec: channel number of the left back leg. -/
def SERVO_LB : Int := 2

/-- Modelled from the spec: channel number of the right back leg. -/
def SERVO_RB : Int := 3

/-- Modelled from the spec: direction code of the legacy walk (the `self.otto.walk` tool
documents `1=forward, -1=backward`). -/
def FORWARD : Int := 1

/-- Modelled from the spec: direction code of the legacy turn (the `self.otto.turn` tool
documents `1=left, -1=right`). -/
def LEFT : Int := 1

/-- The members of class `Otto` that the servo layer reads and writes.  `servo_ i` is the
angle last handed to `servo_[i].SetPosition`, and `actuator` lists every such hand-over
`(channel, angle)` in program order. -/
structure Otto where
  servo_pins_ : Int → Int
  servo_trim_ : Int → Int
  servo_compensate_ : Int → Int
  servo_ : Int → Int
  is_otto_resting_ : Bool
  actuator : List (Int × Int)

/-- Modelled from the spec: `Oscillator::SetPosition` (`oscillator.h` is not part of the
sources).  The hand-over of `angle` to the actuator of channel `servo_id` is recorded. -/
def Otto.SetPosition (o : Otto) (servo_id : Int) (angle : Int) : Otto :=
  { o with
    servo_ := Function.update o.servo_ servo_id angle
    actuator := o.actuator ++ [(servo_id, angle)] }

/-- The value of an `int` expression whose mathematical value is `x`: two's complement
wrap-around at 32 bits. -/
def wrapInt32 (x : Int) : Int :=
  (x + 2147483648) % 4294967296 - 2147483648

/-- The power of two `p` by which a magnitude `m` is scaled so that `m / p` fits the 24 bit
significand of a `float`: the least `p = 2 ^ e` with `m < 2 ^ 24 * p`, searched from `p`
in at most `fuel` doublings (104 doublings reach the largest `float` exponent). -/
def floatScale (m : Nat) : Nat → Nat → Nat
  | 0, p => p
  | fuel + 1, p => if m < 16777216 * p then p else floatScale m fuel (2 * p)

/-- The `float` nearest to the integer `n` (IEEE 754 binary32, round to nearest, ties to
even): the value of the conversion of an `int` to `float` and of a `float` sum whose exact
value is `n`.  Below `2 ^ 24` in magnitude every integer is a `float`.  A magnitude beyond
the `float` range stays a large integer here, where the machine has an infinity; the
comparisons of `ServoWrite` treat both alike. -/
def roundToFloat (n : Int) : Int :=
  let m := n.natAbs
  let p := floatScale m 104 1
  let q := m / p
  let r := m % p
  let q := if 2 * r > p ∨ (2 * r = p ∧ q % 2 = 1) then q + 1 else q
  if n < 0 then -((q * p : Nat) : Int) else ((q * p : Nat) : Int)

/-- Embedding of `Otto::ServoWrite(int servo_id, float angle)`.  `angle` is the integer the
caller passes, which becomes a `float` at the call.  In `angle += servo_compensate_[servo_id]
+ servo_trim_[servo_id]` the two `int` members are added as `int`, the result is converted
to `float` and added to `angle` as `float`. -/
def ServoWrite (o : Otto) (servo_id : Int) (angle : Int) : Otto :=
  if servo_id < 0 ∨ servo_id ≥ SERVO_COUNT ∨ o.servo_pins_ servo_id = -1 then
    o
  else
    let angle := roundToFloat angle
    -- Apply compensation and trim
    let angle := roundToFloat (angle +
      roundToFloat (wrapInt32 (o.servo_compensate_ servo_id + o.servo_trim_ servo_id)))
    -- Limit angle to 0-180 degrees
    let angle := if angle < 0 then 0 else angle
    let angle := if angle > 180 then 180 else angle
    -- For right side servos, invert the angle
    let angle := if servo_id = SERVO_RF ∨ servo_id = SERVO_RB then 180 - angle else angle
    o.SetPosition servo_id angle

/-- Embedding of `Otto::SetTrims`. The forwarding of each trim to `servo_[i].SetTrim` is
internal to the absent oscillator and is not represented. -/
def SetTrims (o : Otto) (left_front right_front left_back right_back : Int) : Otto :=
  { o with
    servo_trim_ :=
      Function.update
        (Function.update
          (Function.update
            (Function.update o.servo_trim_ SERVO_LF left_front)
            SERVO_RF right_front)
          SERVO_LB left_back)
        SERVO_RB right_back }

/-- Labels of the display emotions used by the controller (string literals in the source). -/
inductive Emotion
  | neutral | happy | angry | sleepy | scared | shocked | surprised | winking | cool
  deriving DecidableEq, Repr

/-- One primitive call issued by the gait library. -/
inductive Cmd
  /-- A call of `ServoWrite(servo_id, angle)` with the nominal angle. -/
  | write (servo_id : Int) (angle : Int)
  /-- A call of `vTaskDelay(pdMS_TO_TICKS(ms))`. -/
  | delay (ms : Int)
  /-- An assignment `is_otto_resting_ = state`. -/
  | rest (state : Bool)
  deriving DecidableEq, Repr

/-- Effect of one primitive call on the servo state. -/
def Otto.step (o : Otto) : Cmd → Otto
  | .write servo_id angle => ServoWrite o servo_id angle
  | .rest state => { o with is_otto_resting_ := state }
  | .delay _ => o

/-- Effect of a sequence of primitive calls on the servo state. -/
def Otto.run (o : Otto) (cmds : List Cmd) : Otto :=
  cmds.foldl Otto.step o

/-- Embedding of `Otto::ServoAngleSet`: the write, then the delay when it is positive. -/
def ServoAngleSet (servo_id : Int) (angle : Int) (delay_time : Int) : List Cmd :=
  [Cmd.write servo_id angle] ++ (if delay_time > 0 then [Cmd.delay delay_time] else [])

/-- Embedding of `Otto::ServoInit`. -/
def ServoInit (lf_angle rf_angle lb_angle rb_angle delay_time : Int) : List Cmd :=
  ServoAngleSet SERVO_LF lf_angle 0 ++
  ServoAngleSet SERVO_RF rf_angle 0 ++
  ServoAngleSet SERVO_LB lb_angle 0 ++
  ServoAngleSet SERVO_RB rb_angle 0 ++
  (if delay_time > 0 then [Cmd.delay delay_time] else [])

/-- Embedding of `Otto::ExecuteDogMovement`. -/
def ExecuteDogMovement (lf rf lb rb delay_time : Int) : List Cmd :=
  ServoAngleSet SERVO_LF lf 0 ++
  ServoAngleSet SERVO_RF rf 0 ++
  ServoAngleSet SERVO_LB lb 0 ++
  ServoAngleSet SERVO_RB rb delay_time

/-- Embedding of `Otto::StandUp`. -/
def StandUp : List Cmd :=
  ServoInit 90 90 90 90 500 ++ [Cmd.rest true] ++ [Cmd.delay 200]

/-- Embedding of `Otto::Home`. -/
def Home : List Cmd :=
  StandUp

/-! ## Loops of the gait library -/

/-- The loop `for (int i = 0; i < n; i++) body` whose body does not use `i`. -/
def repeatLoop (n : Int) (body : List Cmd) : List Cmd :=
  (List.replicate n.toNat body).flatten

/-- The loop `for (int i = a; i < b; i++) body(i)`. -/
def forLt (a b : Int) (body : Int → List Cmd) : List Cmd :=
  (List.range (b - a).toNat).flatMap (fun k => body (a + k))

/-- The loop `for (int i = a; i > b; i--) body(i)`. -/
def forGt (a b : Int) (body : Int → List Cmd) : List Cmd :=
  (List.range (a - b).toNat).flatMap (fun k => body (a - k))

/-- The loop `for (int i = a; i >= b; i -= s) body(i)` for a positive stride `s`. -/
def forGeStep (a b s : Int) (body : Int → List Cmd) : List Cmd :=
  (List.range (if a < b then 0 else ((a - b) / s).toNat + 1)).flatMap
    (fun k => body (a - s * k))

/-- The loop `for (int i = a; i <= b; i += s) body(i)` for a positive stride `s`. -/
def forLeStep (a b s : Int) (body : Int → List Cmd) : List Cmd :=
  (List.range (if b < a then 0 else ((b - a) / s).toNat + 1)).flatMap
    (fun k => body (a + s * k))

/-! ## Dog-style gait primitives -/

/-- Body of the step loop of `Otto::DogWalk`. -/
def DogWalk.body (speed_delay : Int) : List Cmd :=
  -- Step 1: LF+RB diagonal, then RF+LB
  ServoAngleSet SERVO_LF 30 0 ++
  ServoAngleSet SERVO_RB 30 speed_delay ++
  ServoAngleSet SERVO_RF 150 0 ++
  ServoAngleSet SERVO_LB 150 speed_delay ++
  -- Return to neutral with same sequence
  ServoAngleSet SERVO_LF 90 0 ++
  ServoAngleSet SERVO_RB 90 speed_delay ++
  ServoAngleSet SERVO_RF 90 0 ++
  ServoAngleSet SERVO_LB 90 speed_delay ++
  -- Step 2: Opposite diagonal - RF+LB, then LF+RB
  ServoAngleSet SERVO_RF 30 0 ++
  ServoAngleSet SERVO_LB 30 speed_delay ++
  ServoAngleSet SERVO_LF 150 0 ++
  ServoAngleSet SERVO_RB 150 speed_delay ++
  -- Return to neutral
  ServoAngleSet SERVO_RF 90 0 ++
  ServoAngleSet SERVO_LB 90 speed_delay ++
  ServoAngleSet SERVO_LF 90 0 ++
  ServoAngleSet SERVO_RB 90 speed_delay

/-- Embedding of `Otto::DogWalk`. -/
def DogWalk (steps speed_delay : Int) : List Cmd :=
  StandUp ++ [Cmd.delay 120] ++ repeatLoop steps (DogWalk.body speed_delay)

/-- Body of the step loop of `Otto::DogWalkBack`. -/
def DogWalkBack.body (speed_delay : Int) : List Cmd :=
  -- Step 1: LF+RB diagonal (reversed angles)
  ServoAngleSet SERVO_LF 150 0 ++
  ServoAngleSet SERVO_RB 150 speed_delay ++
  ServoAngleSet SERVO_RF 30 0 ++
  ServoAngleSet SERVO_LB 30 speed_delay ++
  -- Return to neutral with same sequence
  ServoAngleSet SERVO_LF 90 0 ++
  ServoAngleSet SERVO_RB 90 speed_delay ++
  ServoAngleSet SERVO_RF 90 0 ++
  ServoAngleSet SERVO_LB 90 speed_delay ++
  -- Step 2: Opposite diagonal - RF+LB (reversed angles)
  ServoAngleSet SERVO_RF 150 0 ++
  ServoAngleSet SERVO_LB 150 speed_delay ++
  ServoAngleSet SERVO_LF 30 0 ++
  ServoAngleSet SERVO_RB 30 speed_delay ++
  -- Return to neutral
  ServoAngleSet SERVO_RF 90 0 ++
  ServoAngleSet SERVO_LB 90 speed_delay ++
  ServoAngleSet SERVO_LF 90 0 ++
  ServoAngleSet SERVO_RB 90 speed_delay

/-- Embedding of `Otto::DogWalkBack`. -/
def DogWalkBack (steps speed_delay : Int) : List Cmd :=
  StandUp ++ [Cmd.delay 120] ++ repeatLoop steps (DogWalkBack.body speed_delay)

/-- Body of the step loop of `Otto::DogTurnLeft`. -/
def DogTurnLeft.body (speed_delay : Int) : List Cmd :=
  -- RF+LB first, then LF+RB
  ServoAngleSet SERVO_RF 45 0 ++
  ServoAngleSet SERVO_LB 135 speed_delay ++
  ServoAngleSet SERVO_LF 45 0 ++
  ServoAngleSet SERVO_RB 135 speed_delay ++
  -- Return to neutral
  ServoAngleSet SERVO_RF 90 0 ++
  ServoAngleSet SERVO_LB 90 speed_delay ++
  ServoAngleSet SERVO_LF 90 0 ++
  ServoAngleSet SERVO_RB 90 speed_delay

/-- Embedding of `Otto::DogTurnLeft`. -/
def DogTurnLeft (steps speed_delay : Int) : List Cmd :=
  StandUp ++ [Cmd.delay 500] ++ repeatLoop steps (DogTurnLeft.body speed_delay)

/-- Body of the step loop of `Otto::DogTurnRight`. -/
def DogTurnRight.body (speed_delay : Int) : List Cmd :=
  -- LF+RB first, then RF+LB
  ServoAngleSet SERVO_LF 45 0 ++
  ServoAngleSet SERVO_RB 135 speed_delay ++
  ServoAngleSet SERVO_RF 45 0 ++
  ServoAngleSet SERVO_LB 135 speed_delay ++
  -- Return to neutral
  ServoAngleSet SERVO_LF 90 0 ++
  ServoAngleSet SERVO_RB 90 speed_delay ++
  ServoAngleSet SERVO_RF 90 0 ++
  ServoAngleSet SERVO_LB 90 speed_delay

/-- Embedding of `Otto::DogTurnRight`. -/
def DogTurnRight (steps speed_delay : Int) : List Cmd :=
  StandUp ++ [Cmd.delay 500] ++ repeatLoop steps (DogTurnRight.body speed_delay)

/-- Embedding of `Otto::DogSitDown`. -/
def DogSitDown (delay_time : Int) : List Cmd :=
  ExecuteDogMovement 90 90 30 30 delay_time

/-- Embedding of `Otto::DogLieDown`. -/
def DogLieDown (delay_time : Int) : List Cmd :=
  ExecuteDogMovement 5 5 5 5 delay_time ++ [Cmd.delay 1000]

/-- Embedding of `Otto::DogJump`. -/
def DogJump (delay_time : Int) : List Cmd :=
  ExecuteDogMovement 60 60 60 60 delay_time ++
  ExecuteDogMovement 120 120 120 120 100 ++
  [Cmd.delay 300] ++
  StandUp

/-- Embedding of `Otto::DogBow`. -/
def DogBow (delay_time : Int) : List Cmd :=
  ExecuteDogMovement 0 0 90 90 100 ++
  [Cmd.delay delay_time] ++
  StandUp

/-- Body of the cycle loop of `Otto::DogDance`. -/
def DogDance.body : List Cmd :=
  ExecuteDogMovement 60 120 60 120 200 ++
  ExecuteDogMovement 120 60 120 60 200 ++
  ExecuteDogMovement 75 75 105 105 150 ++
  [Cmd.delay 100] ++
  ExecuteDogMovement 105 105 75 75 150

/-- Embedding of `Otto::DogDance`; the source does not use `speed_delay`. -/
def DogDance (cycles _speed_delay : Int) : List Cmd :=
  repeatLoop cycles DogDance.body ++ StandUp

/-- Body of the wave loop of `Otto::DogWaveRightFoot`. -/
def DogWaveRightFoot.body (speed_delay : Int) : List Cmd :=
  forGeStep 90 0 5 (fun angle => ServoAngleSet SERVO_RF angle 0 ++ [Cmd.delay 8]) ++
  [Cmd.delay speed_delay] ++
  forLeStep 0 90 5 (fun angle => ServoAngleSet SERVO_RF angle 0 ++ [Cmd.delay 8]) ++
  [Cmd.delay speed_delay]

/-- Embedding of `Otto::DogWaveRightFoot`. -/
def DogWaveRightFoot (waves speed_delay : Int) : List Cmd :=
  ExecuteDogMovement 90 90 90 90 300 ++
  repeatLoop waves (DogWaveRightFoot.body speed_delay) ++
  StandUp

/-- Body of the cycle loop of `Otto::DogDance4Feet`. -/
def DogDance4Feet.body (speed_delay : Int) : List Cmd :=
  ExecuteDogMovement 60 60 60 60 speed_delay ++ [Cmd.delay 400] ++
  ExecuteDogMovement 120 120 120 120 speed_delay ++ [Cmd.delay 400] ++
  ExecuteDogMovement 90 90 90 90 speed_delay ++ [Cmd.delay 200]

/-- Embedding of `Otto::DogDance4Feet`. -/
def DogDance4Feet (cycles speed_delay : Int) : List Cmd :=
  StandUp ++ [Cmd.delay 200] ++
  repeatLoop cycles (DogDance4Feet.body speed_delay) ++
  StandUp ++ [Cmd.delay 500]

/-- Body of the cycle loop of `Otto::DogSwing`. -/
def DogSwing.body (speed_delay : Int) : List Cmd :=
  forLt 30 90 (fun i => ExecuteDogMovement i (110 - i) i (110 - i) 0 ++ [Cmd.delay speed_delay]) ++
  forGt 90 30 (fun i => ExecuteDogMovement i (110 - i) i (110 - i) 0 ++ [Cmd.delay speed_delay])

/-- Embedding of `Otto::DogSwing`. -/
def DogSwing (cycles speed_delay : Int) : List Cmd :=
  StandUp ++ [Cmd.delay 500] ++
  forGt 90 30 (fun i => ExecuteDogMovement i i i i 0 ++ [Cmd.delay speed_delay]) ++
  repeatLoop cycles (DogSwing.body speed_delay) ++
  DogSitDown 0

/-- Body of the cycle loop of `Otto::DogStretch`. -/
def DogStretch.body (speed_delay : Int) : List Cmd :=
  forGt 90 10 (fun j => ExecuteDogMovement j j 90 90 speed_delay) ++
  forLt 10 90 (fun j => ExecuteDogMovement j j 90 90 speed_delay) ++
  forLt 90 170 (fun j => ExecuteDogMovement 90 90 j j speed_delay) ++
  forGt 170 90 (fun j => ExecuteDogMovement 90 90 j j speed_delay)

/-- Embedding of `Otto::DogStretch`. -/
def DogStretch (cycles speed_delay : Int) : List Cmd :=
  ExecuteDogMovement 90 90 90 90 80 ++
  repeatLoop cycles (DogStretch.body speed_delay)

/-! ## Legacy movement functions -/

/-- Embedding of `Otto::Jump`; the source does not use `steps`. -/
def Jump (_steps period : Int) : List Cmd :=
  DogJump (Int.tdiv period 2)

/-- Embedding of `Otto::Walk(float steps, int period, int dir)`.  `steps` is the integer the
caller passes, which becomes a `float` at the call and an `int` again in `(int)steps`; the
cast is exact for a value within the `int` range. -/
def Walk (steps period dir : Int) : List Cmd :=
  let step_count := roundToFloat steps
  let speed_delay := Int.tdiv period 4
  if dir = FORWARD then DogWalk step_count speed_delay
  else DogWalkBack step_count speed_delay

/-- Embedding of `Otto::Turn(float steps, int period, int dir)`, with `steps` as in
`Walk`. -/
def Turn (steps period dir : Int) : List Cmd :=
  let step_count := roundToFloat steps
  let speed_delay := Int.tdiv period 4
  if dir = LEFT then DogTurnLeft step_count speed_delay
  else DogTurnRight step_count speed_delay

/-- Embedding of `Otto::Bend`; the source uses only `period`. -/
def Bend (_steps period _dir : Int) : List Cmd :=
  DogBow period

/-! ## The controller (`otto-robot/otto_controller.cc`) -/

/-- Embedding of `struct OttoActionParams`. -/
structure OttoActionParams where
  action_type : Int
  steps : Int
  speed : Int
  direction : Int
  amount : Int
  deriving DecidableEq, Repr

/-! Values of `enum ActionType`. -/

def ACTION_DOG_WALK : Int := 1
def ACTION_DOG_WALK_BACK : Int := 2
def ACTION_DOG_TURN_LEFT : Int := 3
def ACTION_DOG_TURN_RIGHT : Int := 4
def ACTION_DOG_SIT_DOWN : Int := 5
def ACTION_DOG_LIE_DOWN : Int := 6
def ACTION_DOG_JUMP : Int := 7
def ACTION_DOG_BOW : Int := 8
def ACTION_DOG_DANCE : Int := 9
def ACTION_DOG_WAVE_RIGHT_FOOT : Int := 10
def ACTION_DOG_DANCE_4_FEET : Int := 11
def ACTION_DOG_SWING : Int := 12
def ACTION_DOG_STRETCH : Int := 13
def ACTION_DOG_SCRATCH : Int := 14
def ACTION_WALK : Int := 15
def ACTION_TURN : Int := 16
def ACTION_JUMP : Int := 17
def ACTION_BEND : Int := 18
def ACTION_HOME : Int := 19
def ACTION_DELAY : Int := 20
def ACTION_DOG_JUMP_HAPPY : Int := 21

/-- What the controller takes from outside the sources: whether
`Board::GetInstance().GetDisplay()` returns a display, and the command sequence of
`Otto::DogScratch`, whose definition is not part of the sources. -/
structure Env where
  display : Bool
  DogScratch : Int → Int → List Cmd

/-- One observable action of the controller. -/
inductive Event
  /-- A primitive call of the gait library, or a `vTaskDelay` of the controller itself. -/
  | cmd (c : Cmd)
  /-- A call of `display->SetEmotion(label)`. -/
  | emotion (label : Emotion)
  /-- The executor log line `Executing action: type, steps, speed` written on dequeue. -/
  | executing (action_type steps speed : Int)
  deriving DecidableEq, Repr

/-- A call of a gait primitive from the controller. -/
def call (cmds : List Cmd) : List Event :=
  cmds.map Event.cmd

/-- The primitive calls of a controller trace, in order. -/
def cmdsOf : List Event → List Cmd
  | [] => []
  | .cmd c :: es => c :: cmdsOf es
  | _ :: es => cmdsOf es

/-- The statement `if (display) display->SetEmotion(label);`. -/
def SetEmotion (env : Env) (label : Emotion) : List Event :=
  if env.display then [Event.emotion label] else []

/-- The members of class `OttoController`.  `action_queue_` is `none` for a null handle
and otherwise holds the pending requests, oldest first; `action_task_handle_` tells whether
the executor task exists; `trace` lists every primitive call issued through this
controller, in program order, and `otto_` is the servo state those calls produce. -/
structure OttoController where
  otto_ : Otto
  action_task_handle_ : Bool
  action_queue_ : Option (List OttoActionParams)
  is_action_in_progress_ : Bool
  idle_no_action_ticks_ : Int
  idle_mode_ : Bool
  idle_emoji_tick_ : Nat
  trace : List Event

/-- Issue a sequence of primitive calls through the controller. -/
def OttoController.emit (c : OttoController) (evs : List Event) : OttoController :=
  { c with otto_ := c.otto_.run (cmdsOf evs), trace := c.trace ++ evs }

/-- Increment of an `int` with two's complement wrap-around. -/
def incInt32 (x : Int) : Int :=
  (x + 1 + 2147483648) % 4294967296 - 2147483648

/-- Increment of a `uint32_t`. -/
def incUInt32 (x : Nat) : Nat :=
  (x + 1) % 4294967296

/-- The table `kIdleEmojis` indexed with `r % 5`, for a value `r` of `esp_random()`. -/
def kIdleEmojis (r : Nat) : Emotion :=
  match r % 5 with
  | 0 => Emotion.happy
  | 1 => Emotion.winking
  | 2 => Emotion.cool
  | 3 => Emotion.sleepy
  | _ => Emotion.surprised

/-- The `switch (params.action_type)` of `ActionTask`: the calls issued for one request. -/
def ActionTask.dispatch (env : Env) (params : OttoActionParams) : List Event :=
  if params.action_type = ACTION_DOG_WALK then call (DogWalk params.steps params.speed)
  else if params.action_type = ACTION_DOG_WALK_BACK then
    call (DogWalkBack params.steps params.speed)
  else if params.action_type = ACTION_DOG_TURN_LEFT then
    call (DogTurnLeft params.steps params.speed)
  else if params.action_type = ACTION_DOG_TURN_RIGHT then
    call (DogTurnRight params.steps params.speed)
  else if params.action_type = ACTION_DOG_SIT_DOWN then call (DogSitDown params.speed)
  else if params.action_type = ACTION_DOG_LIE_DOWN then call (DogLieDown params.speed)
  else if params.action_type = ACTION_DOG_JUMP then
    SetEmotion env Emotion.angry ++ call (DogJump params.speed) ++
      SetEmotion env Emotion.neutral
  else if params.action_type = ACTION_DOG_JUMP_HAPPY then
    SetEmotion env Emotion.happy ++ call (DogJump params.speed) ++
      SetEmotion env Emotion.neutral
  else if params.action_type = ACTION_DOG_BOW then call (DogBow params.speed)
  else if params.action_type = ACTION_DOG_DANCE then
    call (DogDance params.steps params.speed)
  else if params.action_type = ACTION_DOG_WAVE_RIGHT_FOOT then
    call (DogWaveRightFoot params.steps params.speed)
  else if params.action_type = ACTION_DOG_DANCE_4_FEET then
    call (DogDance4Feet params.steps params.speed)
  else if params.action_type = ACTION_DOG_SWING then
    call (DogSwing params.steps params.speed)
  else if params.action_type = ACTION_DOG_STRETCH then
    SetEmotion env Emotion.sleepy ++ call (DogStretch params.steps params.speed) ++
      SetEmotion env Emotion.neutral
  else if params.action_type = ACTION_DOG_SCRATCH then
    call (env.DogScratch params.steps params.speed)
  else if params.action_type = ACTION_WALK then
    call (Walk params.steps params.speed params.direction)
  else if params.action_type = ACTION_TURN then
    call (Turn params.steps params.speed params.direction)
  else if params.action_type = ACTION_JUMP then
    SetEmotion env Emotion.angry ++ call (Jump params.steps params.speed) ++
      SetEmotion env Emotion.neutral
  else if params.action_type = ACTION_BEND then
    call (Bend params.steps params.speed params.direction)
  else if params.action_type = ACTION_HOME then call Home
  else if params.action_type = ACTION_DELAY then [Event.cmd (Cmd.delay params.speed)]
  else []

/-- The four assignments of `ActionTask` that follow a successful `xQueueReceive`, after the
log line and before the `switch`. -/
def ActionTask.begin (c : OttoController) (params : OttoActionParams) : OttoController :=
  let c := c.emit [Event.executing params.action_type params.steps params.speed]
  { c with
    is_action_in_progress_ := true
    idle_no_action_ticks_ := 0
    idle_mode_ := false
    idle_emoji_tick_ := 0 }

/-- The end of the receive branch of `ActionTask`: clear the flag, settle for 20 ms. -/
def ActionTask.finish (c : OttoController) : OttoController :=
  { c with is_action_in_progress_ := false }.emit [Event.cmd (Cmd.delay 20)]

/-- The receive branch of one `ActionTask` iteration for the dequeued request `params`. -/
def ActionTask.received (env : Env) (c : OttoController) (params : OttoActionParams) :
    OttoController :=
  ActionTask.finish ((ActionTask.begin c params).emit (ActionTask.dispatch env params))

/-- The timeout branch of one `ActionTask` iteration.  `r` is the value `esp_random()`
returns; the two places that call it lie in blocks that exclude each other (the first needs
`idle_mode_`, the second its negation, and the first does not change it), so one iteration
makes at most one call. -/
def ActionTask.timeout (env : Env) (c : OttoController) (r : Nat) : OttoController :=
  -- No action received within 1 second -> idle tick
  let c := { c with idle_no_action_ticks_ := incInt32 c.idle_no_action_ticks_ }
  -- If in idle mode, periodically randomize emoji from a set
  let c :=
    if c.idle_mode_ then
      let c := { c with idle_emoji_tick_ := incUInt32 c.idle_emoji_tick_ }
      if c.idle_emoji_tick_ ≥ 10 then
        { c with idle_emoji_tick_ := 0 }.emit (SetEmotion env (kIdleEmojis r))
      else c
    else c
  -- Enter idle mode after 120s without actions
  if !c.idle_mode_ ∧ c.idle_no_action_ticks_ ≥ 120 then
    let c := { c with idle_mode_ := true, idle_emoji_tick_ := 0 }
    let c := c.emit (call (DogLieDown 1500))
    c.emit (SetEmotion env (kIdleEmojis r))
  else c

/-- One iteration of the `while (true)` loop of `ActionTask` with no concurrent producer:
`xQueueReceive` yields the oldest pending request, or times out on an empty queue.  The
task only exists after a successful `xQueueSend`, so the handle is not null while it runs;
a null handle is treated like an empty queue. -/
def ActionTask.iter (env : Env) (c : OttoController) (r : Nat) : OttoController :=
  match c.action_queue_ with
  | some (params :: pending) =>
    ActionTask.received env { c with action_queue_ := some pending } params
  | _ => ActionTask.timeout env c r

/-- Consecutive dequeue timeouts of `ActionTask`, one per supplied value of the random
source. -/
def ActionTask.timeouts (env : Env) (c : OttoController) (rs : List Nat) : OttoController :=
  rs.foldl (ActionTask.timeout env) c

/-- Successive iterations of `ActionTask`, one per supplied value of the random source. -/
def ActionTask.run (env : Env) (c : OttoController) : List Nat → OttoController
  | [] => c
  | r :: rs => ActionTask.run env (ActionTask.iter env c r) rs

/-- Embedding of `OttoController::StopAll`. -/
def StopAll (c : OttoController) : OttoController :=
  -- Reset the queue to clear all pending actions
  let c :=
    match c.action_queue_ with
    | some _ => { c with action_queue_ := some [] }
    | none => c
  -- Set flag to stop current action
  let c := { c with is_action_in_progress_ := false }
  -- Go to home position immediately
  c.emit (call Home)

/-- Embedding of the handler of the tool `self.dog.walk_forward`: a direct call of
`otto_.DogWalk(steps, speed)`. -/
def tool_dog_walk_forward (c : OttoController) (steps speed : Int) : OttoController :=
  c.emit (call (DogWalk steps speed))

/-- Capacity of the action queue: the first argument of `xQueueCreate(10, ...)`. -/
def queueCapacity : Nat := 10

/-- Embedding of `OttoController::StartActionTaskIfNeeded`.  `task_create_pass` tells
whether `xTaskCreate` returns `pdPASS`. -/
def StartActionTaskIfNeeded (task_create_pass : Bool) (c : OttoController) :
    OttoController :=
  if c.action_task_handle_ = false then
    if task_create_pass then { c with action_task_handle_ := true }
    else { c with action_task_handle_ := false }
  else c

/-- Embedding of `OttoController::QueueAction`.  `xQueueSend` is called with
`portMAX_DELAY`: on a full queue the producer blocks until the executor makes room, and
without a concurrent consumer the call does not return, which is the result `none`. -/
def QueueAction (task_create_pass : Bool) (c : OttoController)
    (action_type steps speed direction amount : Int) : Option OttoController :=
  match c.action_queue_ with
  | none => some c
  | some pending =>
    let params : OttoActionParams :=
      { action_type := action_type, steps := steps, speed := speed, direction := direction,
        amount := amount }
    if pending.length < queueCapacity then
      some (StartActionTaskIfNeeded task_create_pass
        { c with action_queue_ := some (pending ++ [params]) })
    else none

/-- Embedding of `OttoController::ExecuteAction`. -/
def ExecuteAction (task_create_pass : Bool) (c : OttoController)
    (action_type steps speed direction amount : Int) : Option OttoController :=
  QueueAction task_create_pass c action_type steps speed direction amount

/-- The two values of `esp_err_t` the controller returns. -/
inductive esp_err_t
  | ESP_OK
  | ESP_ERR_INVALID_STATE
  deriving DecidableEq, Repr

/-- Embedding of the C function `otto_controller_queue_action`.  `g_otto_controller` is
`none` for a null pointer.  The result is the returned code with the controller after the
call, or `none` when the call blocks in `xQueueSend`. -/
def otto_controller_queue_action (task_create_pass : Bool)
    (g_otto_controller : Option OttoController)
    (action_type steps speed direction amount : Int) :
    Option (esp_err_t × Option OttoController) :=
  match g_otto_controller with
  | none => some (esp_err_t.ESP_ERR_INVALID_STATE, none)
  | some c =>
    match ExecuteAction task_create_pass c action_type steps speed direction amount with
    | some c1 => some (esp_err_t.ESP_OK, some c1)
    | none => none

/-- Embedding of the handler of the tool `self.dog.stop`.  The handle goes to `xQueueReset`
unguarded; on a null handle that call faults, which is the result `none`. -/
def tool_dog_stop (c : OttoController) : Option OttoController :=
  let c := if c.action_task_handle_ then { c with action_task_handle_ := false } else c
  let c := { c with is_action_in_progress_ := false }
  match c.action_queue_ with
  | none => none
  | some _ => some ({ c with action_queue_ := some [] }.emit (call Home))

/-- The four keys `left_front`, `right_front`, `left_back`, `right_back` that
`LoadTrimsFromNVS` reads from the namespace `otto_trims` (string literals in the source). -/
inductive TrimKey
  | left_front | right_front | left_back | right_back
  deriving DecidableEq, Repr

/-- Modelled from the spec: the settings store (`settings.h` is not part of the sources),
an external key-value store holding at most one integer per key. -/
def Settings : Type := TrimKey → Option Int

/-- Modelled from the spec: `Settings::GetInt(key, default_value)`, the stored value of the
key, or the default when the key is missing. -/
def Settings.GetInt (settings : Settings) (key : TrimKey) (default_value : Int) : Int :=
  match settings key with
  | some v => v
  | none => default_value

/-- Embedding of `OttoController::LoadTrimsFromNVS`. -/
def LoadTrimsFromNVS (settings : Settings) (c : OttoController) : OttoController :=
  let left_front := settings.GetInt TrimKey.left_front 0
  let right_front := settings.GetInt TrimKey.right_front 0
  let left_back := settings.GetInt TrimKey.left_back 0
  let right_back := settings.GetInt TrimKey.right_back 0
  { c with otto_ := SetTrims c.otto_ left_front right_front left_back right_back }

/-! ## Composite sequence tools (`otto-robot/otto_controller.cc`) -/

/-- Embedding of the handler of the tool `self.dog.defend`. -/
def tool_dog_defend (env : Env) (c : OttoController) : OttoController :=
  let c := c.emit (SetEmotion env Emotion.shocked)
  let c := c.emit (call (DogWalkBack 1 100))
  let c := c.emit (call (DogSitDown 3000))
  let c := c.emit (call (DogLieDown 1500))
  let c := c.emit [Event.cmd (Cmd.delay 3000)]
  let c := c.emit (call Home)
  c.emit (SetEmotion env Emotion.neutral)

/-- The statements of the handler of `self.dog.defend`, one entry per statement, in program
order; `tool_dog_defend` issues them back to back. -/
def tool_dog_defend.statements (env : Env) : List (List Event) :=
  [SetEmotion env Emotion.shocked,
   call (DogWalkBack 1 100),
   call (DogSitDown 3000),
   call (DogLieDown 1500),
   [Event.cmd (Cmd.delay 3000)],
   call Home,
   SetEmotion env Emotion.neutral]

/-- A tool handler running next to the executor task.  The handler runs in the caller's
task and blocks in the delays of its statements; meanwhile `ActionTask` keeps iterating,
its `xQueueReceive` timing out once per second on an empty queue.  `schedule` gives, for
each statement of the handler, the values of the random source for the executor iterations
that complete while that statement runs; they take effect after it. -/
def withExecutor (env : Env) (c : OttoController) :
    List (List Event) → List (List Nat) → OttoController
  | [], _ => c
  | s :: statements, [] => withExecutor env (c.emit s) statements []
  | s :: statements, rs :: schedule =>
    withExecutor env (ActionTask.run env (c.emit s) rs) statements schedule

/-- Embedding of the handler of the tool `self.dog.attack`. -/
def tool_dog_attack (env : Env) (c : OttoController) : OttoController :=
  let c := c.emit (SetEmotion env Emotion.angry)
  let c := c.emit (call (DogWalk 2 100))
  let c := c.emit (call (DogJump 200))
  let c := c.emit (call (DogBow 1000))
  c.emit (SetEmotion env Emotion.neutral)

/-- Embedding of the handler of the tool `self.dog.celebrate`. -/
def tool_dog_celebrate (env : Env) (c : OttoController) : OttoController :=
  let c := c.emit (SetEmotion env Emotion.happy)
  let c := c.emit (call (DogDance 2 200))
  let c := c.emit (call (DogWaveRightFoot 3 50))
  let c := c.emit (call (DogSwing 4 10))
  c.emit (SetEmotion env Emotion.neutral)

/-- Embedding of the handler of the tool `self.dog.greet`. -/
def tool_dog_greet (env : Env) (c : OttoController) : OttoController :=
  let c := c.emit (SetEmotion env Emotion.happy)
  let c := c.emit (call Home)
  let c := c.emit (call (DogWaveRightFoot 5 50))
  let c := c.emit (call (DogBow 2000))
  c.emit (SetEmotion env Emotion.neutral)

/-- Embedding of the handler of the tool `self.dog.retreat`. -/
def tool_dog_retreat (env : Env) (c : OttoController) : OttoController :=
  let c := c.emit (SetEmotion env Emotion.scared)
  let c := c.emit (call (DogWalkBack 3 100))
  let c := c.emit (call (DogTurnRight 4 150))
  let c := c.emit (call (DogWalk 2 100))
  c.emit (SetEmotion env Emotion.neutral)

/-- Embedding of the handler of the tool `self.dog.search`. -/
def tool_dog_search (env : Env) (c : OttoController) : OttoController :=
  let c := c.emit (SetEmotion env Emotion.surprised)
  let c := c.emit (call (DogTurnLeft 2 150))
  let c := c.emit (call (DogTurnRight 4 150))
  let c := c.emit (call (DogTurnLeft 2 150))
  let c := c.emit (call (DogWalk 2 150))
  c.emit (SetEmotion env Emotion.neutral)

/-! ## The web command surface (`otto-robot/otto_webserver.cc`) -/

/-- Whether the characters of `needle` start the list `text`. -/
def startsWith : List Char → List Char → Bool
  | _, [] => true
  | [], _ :: _ => false
  | c :: cs, d :: ds => if c = d then startsWith cs ds else false

/-- Whether the characters of `needle` occur in `text` as a contiguous run. -/
def containsChars : List Char → List Char → Bool
  | [], needle => needle.isEmpty
  | c :: cs, needle => startsWith (c :: cs) needle || containsChars cs needle

/-- The test `strstr(haystack, needle) != NULL` of the C library. -/
def strstr (haystack needle : String) : Bool :=
  containsChars haystack.toList needle.toList

/-- Embedding of the C function `otto_controller_stop_all`. -/
def otto_controller_stop_all (g_otto_controller : Option OttoController) :
    esp_err_t × Option OttoController :=
  match g_otto_controller with
  | none => (esp_err_t.ESP_ERR_INVALID_STATE, none)
  | some c => (esp_err_t.ESP_OK, some (StopAll c))

/-- A call of `otto_controller_queue_action` from the web surface on an initialised
controller; the returned code only feeds a log line.  The result is the controller after
the call, or `none` when the call blocks in `xQueueSend`. -/
def webQueueAction (task_create_pass : Bool) (c : OttoController)
    (action_type steps speed direction amount : Int) : Option OttoController :=
  match otto_controller_queue_action task_create_pass (some c) action_type steps speed
      direction amount with
  | some (_, some c1) => some c1
  | _ => none

/-- The `ACTION_*` codes that `otto-robot/otto_webserver.cc` passes to
`otto_controller_queue_action`.  The header `otto-robot/otto_webserver.h` that defines them
is not part of the sources, so they are a parameter of the web surface. -/
structure WebActionCodes where
  ACTION_DOG_WALK : Int
  ACTION_DOG_WALK_BACK : Int
  ACTION_DOG_TURN_LEFT : Int
  ACTION_DOG_TURN_RIGHT : Int
  ACTION_DOG_SIT_DOWN : Int
  ACTION_DOG_LIE_DOWN : Int
  ACTION_DOG_JUMP : Int
  ACTION_DOG_BOW : Int
  ACTION_DOG_DANCE : Int
  ACTION_DOG_WAVE_RIGHT_FOOT : Int
  ACTION_DOG_DANCE_4_FEET : Int
  ACTION_DOG_SWING : Int
  ACTION_DOG_STRETCH : Int
  ACTION_DOG_SCRATCH : Int
  ACTION_HOME : Int
  ACTION_DELAY : Int

/-- Embedding of `otto_execute_web_action` of the otto-robot variant, on an initialised
controller; `codes` holds the action codes of the header.  The result is the controller
after the call, or `none` when a call blocks in `xQueueSend`. -/
def otto_execute_web_action (env : Env) (codes : WebActionCodes) (task_create_pass : Bool)
    (c : OttoController) (action : String) (param1 param2 : Int) : Option OttoController :=
  if strstr action "walk_back" then
    webQueueAction task_create_pass c codes.ACTION_DOG_WALK_BACK param1 param2 0 0
  else if strstr action "walk_forward" || strstr action "walk" then
    webQueueAction task_create_pass c codes.ACTION_DOG_WALK param1 param2 0 0
  else if strstr action "turn_left" || (strstr action "turn" && decide (param1 < 0)) then
    -- `abs(param1)` is an `int`: `abs(INT_MIN)` wraps to `INT_MIN`
    webQueueAction task_create_pass c codes.ACTION_DOG_TURN_LEFT
      (wrapInt32 (Int.natAbs param1)) param2 0 0
  else if strstr action "turn_right" || (strstr action "turn" && decide (param1 > 0)) then
    webQueueAction task_create_pass c codes.ACTION_DOG_TURN_RIGHT param1 param2 0 0
  else if strstr action "turn" then
    webQueueAction task_create_pass c codes.ACTION_DOG_TURN_RIGHT param1 param2 0 0
  else if strstr action "sit" then
    webQueueAction task_create_pass c codes.ACTION_DOG_SIT_DOWN 1 param2 0 0
  else if strstr action "lie" then
    webQueueAction task_create_pass c codes.ACTION_DOG_LIE_DOWN 1 param2 0 0
  else if strstr action "bow" then
    webQueueAction task_create_pass c codes.ACTION_DOG_BOW 1 param2 0 0
  else if strstr action "jump" then
    webQueueAction task_create_pass (c.emit (SetEmotion env Emotion.angry))
      codes.ACTION_DOG_JUMP 1 param2 0 0
  else if strstr action "dance" then
    webQueueAction task_create_pass (c.emit (SetEmotion env Emotion.happy))
      codes.ACTION_DOG_DANCE param1 param2 0 0
  else if strstr action "wave" then
    webQueueAction task_create_pass c codes.ACTION_DOG_WAVE_RIGHT_FOOT param1 param2 0 0
  else if strstr action "swing" then
    webQueueAction task_create_pass (c.emit (SetEmotion env Emotion.happy))
      codes.ACTION_DOG_SWING param1 param2 0 0
  else if strstr action "stretch" then
    webQueueAction task_create_pass (c.emit (SetEmotion env Emotion.sleepy))
      codes.ACTION_DOG_STRETCH param1 param2 0 0
  else if strstr action "scratch" then
    webQueueAction task_create_pass c codes.ACTION_DOG_SCRATCH param1 param2 0 0
  else if strstr action "defend" then
    (((((webQueueAction task_create_pass (c.emit (SetEmotion env Emotion.shocked))
        codes.ACTION_DOG_WALK_BACK 1 100 0 0).bind
      (fun c => webQueueAction task_create_pass c codes.ACTION_DOG_SIT_DOWN 1 3000 0 0)).bind
      (fun c => webQueueAction task_create_pass c codes.ACTION_DOG_LIE_DOWN 1 1500 0 0)).bind
      (fun c => webQueueAction task_create_pass c codes.ACTION_DELAY 0 3000 0 0)).bind
      (fun c => webQueueAction task_create_pass c codes.ACTION_HOME 1 500 0 0))
  else if strstr action "home" then
    webQueueAction task_create_pass c codes.ACTION_HOME 1 500 0 0
  else if strstr action "dance_4_feet" then
    webQueueAction task_create_pass (c.emit (SetEmotion env Emotion.happy))
      codes.ACTION_DOG_DANCE_4_FEET param1 param2 0 0
  else if strstr action "greet" then
    (((webQueueAction task_create_pass (c.emit (SetEmotion env Emotion.happy))
        codes.ACTION_HOME 1 500 0 0).bind
      (fun c => webQueueAction task_create_pass c codes.ACTION_DOG_WAVE_RIGHT_FOOT 3 150 0 0)).bind
      (fun c => webQueueAction task_create_pass c codes.ACTION_DOG_BOW 2 150 0 0))
  else if strstr action "attack" then
    (((webQueueAction task_create_pass (c.emit (SetEmotion env Emotion.angry))
        codes.ACTION_DOG_WALK 2 100 0 0).bind
      (fun c => webQueueAction task_create_pass c codes.ACTION_DOG_JUMP 2 200 0 0)).bind
      (fun c => webQueueAction task_create_pass c codes.ACTION_DOG_BOW 1 150 0 0))
  else if strstr action "celebrate" then
    (((webQueueAction task_create_pass (c.emit (SetEmotion env Emotion.happy))
        codes.ACTION_DOG_DANCE 2 200 0 0).bind
      (fun c => webQueueAction task_create_pass c codes.ACTION_DOG_WAVE_RIGHT_FOOT 5 100 0 0)).bind
      (fun c => webQueueAction task_create_pass c codes.ACTION_DOG_SWING 3 10 0 0))
  else if strstr action "retreat" then
    (((webQueueAction task_create_pass (c.emit (SetEmotion env Emotion.scared))
        codes.ACTION_DOG_WALK_BACK 3 100 0 0).bind
      (fun c => webQueueAction task_create_pass c codes.ACTION_DOG_TURN_LEFT 2 150 0 0)).bind
      (fun c => webQueueAction task_create_pass c codes.ACTION_DOG_WALK_BACK 2 80 0 0))
  else if strstr action "search" then
    ((((webQueueAction task_create_pass (c.emit (SetEmotion env Emotion.scared))
        codes.ACTION_DOG_TURN_LEFT 2 150 0 0).bind
      (fun c => webQueueAction task_create_pass c codes.ACTION_DOG_TURN_RIGHT 4 150 0 0)).bind
      (fun c => webQueueAction task_create_pass c codes.ACTION_DOG_TURN_LEFT 2 150 0 0)).bind
      (fun c => webQueueAction task_create_pass c codes.ACTION_DOG_WALK 3 120 0 0))
  else if strstr action "stop" then
    (otto_controller_stop_all (some c)).2
  else
    some c

/-! ## Interpolated moves (`Otto::MoveToPosition`) -/

/-- The servo state as `MoveToPosition` uses it.  Its interpolation writes fractional
angles, so the `float` values are rationals here: `servo_ i` is the position of channel `i`
(the angle last handed to `servo_[i].SetPosition`, which `GetPosition` returns),
`increment_` the per-tick increments, `nominal` the calls `ServoWrite(channel, angle)` made
so far and `delays` the arguments of the calls of `vTaskDelay`, both in program order. -/
structure OttoF where
  servo_pins_ : Int → Int
  servo_trim_ : Int → Int
  servo_compensate_ : Int → Int
  servo_ : Int → ℚ
  is_otto_resting_ : Bool
  increment_ : Int → ℚ
  nominal : List (Int × ℚ)
  delays : List Int

/-- The loop `for (int i = 0; i < SERVO_COUNT; i++) if (servo_pins_[i] != -1) body(i)`. -/
def forEachServo (o : OttoF) (body : OttoF → Int → OttoF) : OttoF :=
  [0, 1, 2, 3].foldl (fun o i => if o.servo_pins_ i ≠ -1 then body o i else o) o

namespace Cu

/-! Values of `enum ActionType` of the otto-robotcu controller. -/

def ACTION_DOG_WALK : Int := 1
def ACTION_DOG_WALK_BACK : Int := 2
def ACTION_DOG_TURN_LEFT : Int := 3
def ACTION_DOG_TURN_RIGHT : Int := 4
def ACTION_DOG_SIT_DOWN : Int := 5
def ACTION_DOG_LIE_DOWN : Int := 6
def ACTION_DOG_JUMP : Int := 7
def ACTION_DOG_BOW : Int := 8
def ACTION_DOG_DANCE : Int := 9
def ACTION_DOG_WAVE_RIGHT_FOOT : Int := 10
def ACTION_DOG_DANCE_4_FEET : Int := 11
def ACTION_DOG_SWING : Int := 12
def ACTION_DOG_STRETCH : Int := 13
def ACTION_WALK : Int := 14
def ACTION_TURN : Int := 15
def ACTION_JUMP : Int := 16
def ACTION_BEND : Int := 17
def ACTION_HOME : Int := 18

/-- The members of class `OttoController` of the otto-robotcu variant; `trace` lists every
primitive call issued through this controller, in program order, and `otto_` is the servo
state those calls produce. -/
structure OttoController where
  otto_ : Otto
  action_task_handle_ : Bool
  action_queue_ : Option (List OttoActionParams)
  is_action_in_progress_ : Bool
  trace : List Cmd

/-- Issue a sequence of primitive calls through the controller. -/
def OttoController.emit (c : OttoController) (cmds : List Cmd) : OttoController :=
  { c with otto_ := c.otto_.run cmds, trace := c.trace ++ cmds }

/-- The `switch (params.action_type)` of `ActionTask`; it has no default case. -/
def ActionTask.dispatch (params : OttoActionParams) : List Cmd :=
  if params.action_type = ACTION_DOG_WALK then DogWalk params.steps params.speed
  else if params.action_type = ACTION_DOG_WALK_BACK then DogWalkBack params.steps params.speed
  else if params.action_type = ACTION_DOG_TURN_LEFT then DogTurnLeft params.steps params.speed
  else if params.action_type = ACTION_DOG_TURN_RIGHT then
    DogTurnRight params.steps params.speed
  else if params.action_type = ACTION_DOG_SIT_DOWN then DogSitDown params.speed
  else if params.action_type = ACTION_DOG_LIE_DOWN then DogLieDown params.speed
  else if params.action_type = ACTION_DOG_JUMP then DogJump params.speed
  else if params.action_type = ACTION_DOG_BOW then DogBow params.speed
  else if params.action_type = ACTION_DOG_DANCE then DogDance params.steps params.speed
  else if params.action_type = ACTION_DOG_WAVE_RIGHT_FOOT then
    DogWaveRightFoot params.steps params.speed
  else if params.action_type = ACTION_DOG_DANCE_4_FEET then
    DogDance4Feet params.steps params.speed
  else if params.action_type = ACTION_DOG_SWING then DogSwing params.steps params.speed
  else if params.action_type = ACTION_DOG_STRETCH then DogStretch params.steps params.speed
  else if params.action_type = ACTION_WALK then
    Walk params.steps params.speed params.direction
  else if params.action_type = ACTION_TURN then
    Turn params.steps params.speed params.direction
  else if params.action_type = ACTION_JUMP then Jump params.steps params.speed
  else if params.action_type = ACTION_BEND then
    Bend params.steps params.speed params.direction
  else if params.action_type = ACTION_HOME then Home
  else []

/-- The statement `if (params.action_type != ACTION_HOME) controller->otto_.Home();`. -/
def ActionTask.returnHome (params : OttoActionParams) : List Cmd :=
  if params.action_type ≠ ACTION_HOME then Home else []

/-- The receive branch of one `ActionTask` iteration for the dequeued request `params`. -/
def ActionTask.received (c : OttoController) (params : OttoActionParams) : OttoController :=
  let c := { c with is_action_in_progress_ := true }
  let c := c.emit (ActionTask.dispatch params)
  -- Always return to home position after action
  let c := c.emit (ActionTask.returnHome params)
  let c := { c with is_action_in_progress_ := false }
  c.emit [Cmd.delay 20]

/-- One iteration of the `while (true)` loop of `ActionTask` with no concurrent producer; a
timeout of `xQueueReceive` does nothing. -/
def ActionTask.iter (c : OttoController) : OttoController :=
  match c.action_queue_ with
  | some (params :: pending) =>
    ActionTask.received { c with action_queue_ := some pending } params
  | _ => c

/-- Successive iterations of `ActionTask`. -/
def ActionTask.run (c : OttoController) : Nat → OttoController
  | 0 => c
  | n + 1 => ActionTask.run (ActionTask.iter c) n

/-- Embedding of `OttoController::StartActionTaskIfNeeded`; the result of `xTaskCreate` is
not tested, and the handle is set only when it returns `pdPASS`. -/
def StartActionTaskIfNeeded (task_create_pass : Bool) (c : OttoController) :
    OttoController :=
  if c.action_task_handle_ = false then { c with action_task_handle_ := task_create_pass }
  else c

/-- Embedding of `OttoController::QueueAction`.  The handle goes to `xQueueSend` unguarded
and with `portMAX_DELAY`: the result is `none` when the handle is null (the call faults) and
when the queue is full (the call blocks). -/
def QueueAction (task_create_pass : Bool) (c : OttoController)
    (action_type steps speed direction amount : Int) : Option OttoController :=
  match c.action_queue_ with
  | none => none
  | some pending =>
    let params : OttoActionParams :=
      { action_type := action_type, steps := steps, speed := speed, direction := direction,
        amount := amount }
    if pending.length < queueCapacity then
      some (StartActionTaskIfNeeded task_create_pass
        { c with action_queue_ := some (pending ++ [params]) })
    else none

/-- Embedding of `OttoController::ExecuteAction`. -/
def ExecuteAction (task_create_pass : Bool) (c : OttoController)
    (action_type steps speed direction amount : Int) : Option OttoController :=
  QueueAction task_create_pass c action_type steps speed direction amount

/-- Embedding of the C function `otto_controller_queue_action`. -/
def otto_controller_queue_action (task_create_pass : Bool)
    (g_otto_controller : Option OttoController)
    (action_type steps speed direction amount : Int) :
    Option (esp_err_t × Option OttoController) :=
  match g_otto_controller with
  | none => some (esp_err_t.ESP_ERR_INVALID_STATE, none)
  | some c =>
    match ExecuteAction task_create_pass c action_type steps speed direction amount with
    | some c1 => some (esp_err_t.ESP_OK, some c1)
    | none => none

/-- Embedding of the handler of the tool `self.dog.stop`. -/
def tool_dog_stop (task_create_pass : Bool) (c : OttoController) : Option OttoController :=
  let c := if c.action_task_handle_ then { c with action_task_handle_ := false } else c
  let c := { c with is_action_in_progress_ := false }
  match c.action_queue_ with
  | none => none
  | some _ =>
    QueueAction task_create_pass { c with action_queue_ := some [] } ACTION_HOME 1 500 0 0

namespace Web

/-! The action constants of `otto-robotcu/otto_webserver.h`. -/

def ACTION_DOG_WALK : Int := 1
def ACTION_DOG_WALK_BACK : Int := 2
def ACTION_DOG_TURN_LEFT : Int := 3
def ACTION_DOG_TURN_RIGHT : Int := 4
def ACTION_DOG_SIT_DOWN : Int := 5
def ACTION_DOG_LIE_DOWN : Int := 6
def ACTION_DOG_JUMP : Int := 7
def ACTION_DOG_BOW : Int := 8
def ACTION_DOG_DANCE : Int := 9
def ACTION_DOG_WAVE_RIGHT_FOOT : Int := 10
def ACTION_DOG_DANCE_4_FEET : Int := 11
def ACTION_DOG_SWING : Int := 12
def ACTION_DOG_STRETCH : Int := 13
def ACTION_WALK : Int := 14
def ACTION_TURN : Int := 15
def ACTION_JUMP : Int := 16
def ACTION_HOME : Int := 17

end Web

/-- A call of `otto_controller_queue_action` from the web surface on an initialised
controller; the returned code only feeds a log line. -/
def webQueueAction (task_create_pass : Bool) (c : OttoController)
    (action_type steps speed direction amount : Int) : Option OttoController :=
  match otto_controller_queue_action task_create_pass (some c) action_type steps speed
      direction amount with
  | some (_, some c1) => some c1
  | _ => none

/-- Embedding of `otto_execute_web_action` of the otto-robotcu variant, on an initialised
controller; the action codes are the constants of `otto_webserver.h`. -/
def otto_execute_web_action (task_create_pass : Bool) (c : OttoController)
    (action : String) (param1 param2 : Int) : Option OttoController :=
  if strstr action "walk_back" then
    webQueueAction task_create_pass c Web.ACTION_DOG_WALK_BACK param1 param2 0 0
  else if strstr action "walk_forward" || strstr action "walk" then
    webQueueAction task_create_pass c Web.ACTION_DOG_WALK param1 param2 0 0
  else if strstr action "turn_left" || (strstr action "turn" && decide (param1 < 0)) then
    -- `abs(param1)` is an `int`: `abs(INT_MIN)` wraps to `INT_MIN`
    webQueueAction task_create_pass c Web.ACTION_DOG_TURN_LEFT
      (wrapInt32 (Int.natAbs param1)) param2 0 0
  else if strstr action "turn_right" || (strstr action "turn" && decide (param1 > 0)) then
    webQueueAction task_create_pass c Web.ACTION_DOG_TURN_RIGHT param1 param2 0 0
  else if strstr action "turn" then
    webQueueAction task_create_pass c Web.ACTION_DOG_TURN_RIGHT param1 param2 0 0
  else if strstr action "sit" then
    webQueueAction task_create_pass c Web.ACTION_DOG_SIT_DOWN 1 param2 0 0
  else if strstr action "lie" then
    webQueueAction task_create_pass c Web.ACTION_DOG_LIE_DOWN 1 param2 0 0
  else if strstr action "bow" then
    webQueueAction task_create_pass c Web.ACTION_DOG_BOW 1 param2 0 0
  else if strstr action "jump" then
    webQueueAction task_create_pass c Web.ACTION_DOG_JUMP 1 param2 0 0
  else if strstr action "dance" then
    webQueueAction task_create_pass c Web.ACTION_DOG_DANCE param1 param2 0 0
  else if strstr action "wave" then
    webQueueAction task_create_pass c Web.ACTION_DOG_WAVE_RIGHT_FOOT param1 param2 0 0
  else if strstr action "swing" then
    webQueueAction task_create_pass c Web.ACTION_DOG_SWING param1 param2 0 0
  else if strstr action "stretch" then
    webQueueAction task_create_pass c Web.ACTION_DOG_STRETCH param1 param2 0 0
  else if strstr action "home" then
    webQueueAction task_create_pass c Web.ACTION_HOME 1 500 0 0
  else
    some c

end Cu

/-! ## Reading a command trace -/

/-- The requests the executor logged as dequeued, in order. -/
def executedOf : List Event → List (Int × Int × Int)
  | [] => []
  | .executing t s v :: cs => (t, s, v) :: executedOf cs
  | _ :: cs => executedOf cs

/-- The emotions sent to the display in a trace, in order. -/
def emotionsOf : List Event → List Emotion
  | [] => []
  | .emotion e :: cs => e :: emotionsOf cs
  | _ :: cs => emotionsOf cs

/-- The nominal angle of the last write to channel `servo_id` in a trace, if any. -/
def lastAngle (servo_id : Int) : List Cmd → Option Int
  | [] => none
  | c :: cs =>
    match lastAngle servo_id cs with
    | some a => some a
    | none =>
      match c with
      | .write i a => if i = servo_id then some a else none
      | _ => none

/-- The servo writes of a trace, in order, as pairs `(channel, nominal angle)`. -/
def writesOf : List Cmd → List (Int × Int)
  | [] => []
  | .write i a :: cs => (i, a) :: writesOf cs
  | _ :: cs => writesOf cs

/-- The four sub-phases of one forward walk cycle as the specification lists them: LF and RB
to 30 with RF and LB to 150; all four to 90; RF and LB to 30 with LF and RB to 150; all four
to 90. -/
def walkCycle : List (Int × Int) :=
  [(SERVO_LF, 30), (SERVO_RB, 30), (SERVO_RF, 150), (SERVO_LB, 150)] ++
  [(SERVO_LF, 90), (SERVO_RB, 90), (SERVO_RF, 90), (SERVO_LB, 90)] ++
  [(SERVO_RF, 30), (SERVO_LB, 30), (SERVO_LF, 150), (SERVO_RB, 150)] ++
  [(SERVO_RF, 90), (SERVO_LB, 90), (SERVO_LF, 90), (SERVO_RB, 90)]

/-- Reflection of a nominal angle around 90 degrees; delays and the rest flag are kept. -/
def reflect : Cmd → Cmd
  | .write servo_id angle => .write servo_id (180 - angle)
  | c => c

/-- The complete trace of one dequeued request: the log line, the calls of the `switch`,
and the 20 ms settle delay. -/
def requestTrace (env : Env) (params : OttoActionParams) : List Event :=
  [Event.executing params.action_type params.steps params.speed] ++
  ActionTask.dispatch env params ++
  [Event.cmd (Cmd.delay 20)]

/-- The five labels of the table `kIdleEmojis`. -/
def idleEmotions : List Emotion :=
  [Emotion.happy, Emotion.winking, Emotion.cool, Emotion.sleepy, Emotion.surprised]

/-- The last nominal angle written to each of the legs LF, RF, LB, RB in a trace. -/
def finalPose (t : List Cmd) : Option Int × Option Int × Option Int × Option Int :=
  (lastAngle SERVO_LF t, lastAngle SERVO_RF t, lastAngle SERVO_LB t, lastAngle SERVO_RB t)

/-- Exchange of the left and right channels: LF with RF, LB with RB. -/
def swapChannel (servo_id : Int) : Int :=
  if servo_id = SERVO_LF then SERVO_RF
  else if servo_id = SERVO_RF then SERVO_LF
  else if servo_id = SERVO_LB then SERVO_RB
  else if servo_id = SERVO_RB then SERVO_LB
  else servo_id

/-- A command with the left and right channels exchanged; angles and delays are kept. -/
def swapLR : Cmd → Cmd
  | .write servo_id angle => .write (swapChannel servo_id) angle
  | c => c

/-- One wave as the specification lists it: the right front leg at 90, 85, ..., 0, then at
0, 5, ..., 90, each write followed by 8 ms, and the pause `speed_delay` after each sweep. -/
def waveCycle (speed_delay : Int) : List Cmd :=
  [90, 85, 80, 75, 70, 65, 60, 55, 50, 45, 40, 35, 30, 25, 20, 15, 10, 5, 0].flatMap
    (fun a => [Cmd.write SERVO_RF a, Cmd.delay 8]) ++
  [Cmd.delay speed_delay] ++
  [0, 5, 10, 15, 20, 25, 30, 35, 40, 45, 50, 55, 60, 65, 70, 75, 80, 85, 90].flatMap
    (fun a => [Cmd.write SERVO_RF a, Cmd.delay 8]) ++
  [Cmd.delay speed_delay]

/-- The loop variable of one swing cycle: 30, 31, ..., 89, then 90, 89, ..., 31. -/
def swingAngles : List Int :=
  (List.range 60).map (fun k => 30 + (k : Int)) ++ (List.range 60).map (fun k => 90 - (k : Int))

/-- The pose of the swing loop for the loop variable `i`, as the specification writes it:
`(LF, RF, LB, RB) = (i, 110 - i, i, 110 - i)`. -/
def swingPose (i : Int) : List (Int × Int) :=
  [(SERVO_LF, i), (SERVO_RF, 110 - i), (SERVO_LB, i), (SERVO_RB, 110 - i)]

/-- The delays of a trace, in order. -/
def delaysOf : List Cmd → List Int
  | [] => []
  | .delay ms :: cs => ms :: delaysOf cs
  | _ :: cs => delaysOf cs

/-- The number of times all four legs are written to `angle` in a row, in the order LF, RF,
LB, RB, in a list of writes. -/
def countPose (angle : Int) : List (Int × Int) → Nat
  | [] => 0
  | p :: ps =>
    (if (p :: ps).take 4 =
        [(SERVO_LF, angle), (SERVO_RF, angle), (SERVO_LB, angle), (SERVO_RB, angle)]
      then 1 else 0) + countPose angle ps

/-! ## Sample states -/

/-- A robot whose left back leg is not connected and whose right front leg has trim 5. -/
def otto0 : Otto :=
  { servo_pins_ := fun i => if i = 2 then -1 else 10 + i
    servo_trim_ := fun i => if i = 1 then 5 else 0
    servo_compensate_ := fun _ => 0
    servo_ := fun _ => 90
    is_otto_resting_ := false
    actuator := [] }

/-- A sample environment with a display; its scratch primitive issues no command. -/
def envDisplay : Env :=
  { display := true, DogScratch := fun _ _ => [] }

/-- A sample environment in which `GetDisplay()` returns null. -/
def envNoDisplay : Env :=
  { display := false, DogScratch := fun _ _ => [] }

/-- A controller right after construction, with an empty queue and a running executor. -/
def ctrl0 : OttoController :=
  { otto_ := otto0
    action_task_handle_ := true
    action_queue_ := some []
    is_action_in_progress_ := false
    idle_no_action_ticks_ := 0
    idle_mode_ := false
    idle_emoji_tick_ := 0
    trace := [] }

/-- The pending requests walk(3), turn(2), jump(1) of the stop scenario. -/
def pending3 : List OttoActionParams :=
  [{ action_type := ACTION_DOG_WALK, steps := 3, speed := 150, direction := 0, amount := 0 },
   { action_type := ACTION_DOG_TURN_LEFT, steps := 2, speed := 150, direction := 0, amount := 0 },
   { action_type := ACTION_DOG_JUMP, steps := 1, speed := 200, direction := 0, amount := 0 }]

/-- A controller whose queue holds the three pending requests. -/
def ctrlPending : OttoController :=
  { ctrl0 with action_queue_ := some pending3 }

/-- A controller in idle mode, 125 seconds after the last queued action. -/
def ctrlIdle : OttoController :=
  { ctrl0 with idle_mode_ := true, idle_no_action_ticks_ := 125, idle_emoji_tick_ := 5 }


/-- The executor iterations during one call of `self.dog.defend`, one per second from the
start of the call: the statements last 1620, 3000, 2500, 3000 and 700 ms, so the timeouts
at 1 s, at 2, 3, 4 s, at 5, 6, 7 s and at 8, 9, 10 s fall into the walk back, the sit down,
the lie down and the wait.  `r` is the value of the random source. -/
def defendSchedule (r : Nat) : List (List Nat) :=
  [[], [r], [r, r, r], [r, r, r], [r, r, r], [], []]

/-- A controller with an action in progress. -/
def ctrlBusy : OttoController :=
  { ctrl0 with is_action_in_progress_ := true }

/-- A controller whose action queue could not be created. -/
def ctrlNoQueue : OttoController :=
  { ctrl0 with action_queue_ := none, action_task_handle_ := false }

/-- A settings store with the left front, right front and right back trims; the key
`left_back` is missing. -/
def settings0 : Settings
  | TrimKey.left_front => some 3
  | TrimKey.right_front => some (-4)
  | TrimKey.left_back => none
  | TrimKey.right_back => some 7

/-- The request walk forward, 2 steps, delay 150. -/
def paramsWalk : OttoActionParams :=
  { action_type := ACTION_DOG_WALK, steps := 2, speed := 150, direction := 0, amount := 0 }

/-- A request with an action type outside 1..21. -/
def paramsUnknown : OttoActionParams :=
  { action_type := 99, steps := 1, speed := 100, direction := 0, amount := 0 }

/-- The request of the legacy jump tool for 3 jumps with period 2000. -/
def paramsJump3 : OttoActionParams :=
  { action_type := ACTION_JUMP, steps := 3, speed := 2000, direction := 0, amount := 0 }

/-- Modelled from the spec: the header `otto-robot/otto_webserver.h` is not part of the
sources; the specification speaks of one set of action kinds shared by the command surfaces
and the executor, so each code of the web surface is the member of the controller's
`enum ActionType` with the same name. -/
def enumCodes : WebActionCodes :=
  { ACTION_DOG_WALK := ACTION_DOG_WALK
    ACTION_DOG_WALK_BACK := ACTION_DOG_WALK_BACK
    ACTION_DOG_TURN_LEFT := ACTION_DOG_TURN_LEFT
    ACTION_DOG_TURN_RIGHT := ACTION_DOG_TURN_RIGHT
    ACTION_DOG_SIT_DOWN := ACTION_DOG_SIT_DOWN
    ACTION_DOG_LIE_DOWN := ACTION_DOG_LIE_DOWN
    ACTION_DOG_JUMP := ACTION_DOG_JUMP
    ACTION_DOG_BOW := ACTION_DOG_BOW
    ACTION_DOG_DANCE := ACTION_DOG_DANCE
    ACTION_DOG_WAVE_RIGHT_FOOT := ACTION_DOG_WAVE_RIGHT_FOOT
    ACTION_DOG_DANCE_4_FEET := ACTION_DOG_DANCE_4_FEET
    ACTION_DOG_SWING := ACTION_DOG_SWING
    ACTION_DOG_STRETCH := ACTION_DOG_STRETCH
    ACTION_DOG_SCRATCH := ACTION_DOG_SCRATCH
    ACTION_HOME := ACTION_HOME
    ACTION_DELAY := ACTION_DELAY }

/-- The pending requests walk(3), turn(2), jump(1) in the codes of the otto-robotcu
controller. -/
def cuPending3 : List OttoActionParams :=
  [{ action_type := Cu.ACTION_DOG_WALK, steps := 3, speed := 150, direction := 0,
     amount := 0 },
   { action_type := Cu.ACTION_DOG_TURN_LEFT, steps := 2, speed := 150, direction := 0,
     amount := 0 },
   { action_type := Cu.ACTION_DOG_JUMP, steps := 1, speed := 200, direction := 0,
     amount := 0 }]

/-- An otto-robotcu controller with an empty queue and a running executor. -/
def cuCtrl0 : Cu.OttoController :=
  { otto_ := otto0
    action_task_handle_ := true
    action_queue_ := some []
    is_action_in_progress_ := false
    trace := [] }

/-- An otto-robotcu controller whose queue holds the three pending requests. -/
def cuCtrlPending : Cu.OttoController :=
  { cuCtrl0 with action_queue_ := some cuPending3 }

/-- The request the otto-robotcu web surface enqueues for the command `dog_home`. -/
def cuWebHome : OttoActionParams :=
  { action_type := Cu.Web.ACTION_HOME, steps := 1, speed := 500, direction := 0,
    amount := 0 }

/-! ## Lemmas on command traces -/

theorem writesOf_append (xs ys : List Cmd) :
    writesOf (xs ++ ys) = writesOf xs ++ writesOf ys := by
  induction xs with
  | nil => rfl
  | cons c cs ih => cases c <;> simp [writesOf, ih]

theorem writesOf_ServoAngleSet (i a d : Int) : writesOf (ServoAngleSet i a d) = [(i, a)] := by
  unfold ServoAngleSet
  split_ifs <;> rfl

theorem writesOf_repeatLoop (n : Nat) (body : List Cmd) :
    writesOf (repeatLoop n body) = (List.replicate n (writesOf body)).flatten := by
  unfold repeatLoop
  simp only [Int.toNat_ofNat]
  induction n with
  | zero => rfl
  | succ k ih => simp [List.replicate_succ, writesOf_append, ih]

theorem repeatLoop_succ (n : Nat) (body : List Cmd) :
    repeatLoop ((n + 1 : Nat) : Int) body = repeatLoop (n : Int) body ++ body := by
  unfold repeatLoop
  simp only [Int.toNat_ofNat]
  rw [List.replicate_succ', List.flatten_append]
  simp

theorem map_repeatLoop (f : Cmd → Cmd) (n : Int) (body : List Cmd) :
    (repeatLoop n body).map f = repeatLoop n (body.map f) := by
  unfold repeatLoop
  induction n.toNat with
  | zero => rfl
  | succ k ih => simp [List.replicate_succ, ih]

theorem lastAngle_append (servo_id : Int) (xs ys : List Cmd) :
    lastAngle servo_id (xs ++ ys) =
      match lastAngle servo_id ys with
      | some a => some a
      | none => lastAngle servo_id xs := by
  induction xs with
  | nil => cases h : lastAngle servo_id ys <;> simp [lastAngle, h]
  | cons c cs ih =>
    simp only [List.cons_append, lastAngle, List.append_eq]
    rw [ih]
    cases lastAngle servo_id ys <;> rfl

theorem lastAngle_append_some (servo_id a : Int) (xs ys : List Cmd)
    (h : lastAngle servo_id ys = some a) : lastAngle servo_id (xs ++ ys) = some a := by
  rw [lastAngle_append, h]

theorem lastAngle_ServoAngleSet (servo_id i a d : Int) :
    lastAngle servo_id (ServoAngleSet i a d) = if i = servo_id then some a else none := by
  unfold ServoAngleSet
  split_ifs <;> simp_all [lastAngle]

theorem map_reflect_ServoAngleSet (i a d : Int) :
    (ServoAngleSet i a d).map reflect = ServoAngleSet i (180 - a) d := by
  unfold ServoAngleSet
  split_ifs <;> rfl

theorem lastAngle_StandUp (servo_id : Int) (h : 0 ≤ servo_id ∧ servo_id ≤ 3) :
    lastAngle servo_id StandUp = some 90 := by
  have h4 : servo_id = 0 ∨ servo_id = 1 ∨ servo_id = 2 ∨ servo_id = 3 := by omega
  rcases h4 with h | h | h | h <;> subst h <;> decide

theorem lastAngle_DogWalk_body (servo_id d : Int) (h : 0 ≤ servo_id ∧ servo_id ≤ 3) :
    lastAngle servo_id (DogWalk.body d) = some 90 := by
  have h4 : servo_id = 0 ∨ servo_id = 1 ∨ servo_id = 2 ∨ servo_id = 3 := by omega
  rcases h4 with h | h | h | h <;> subst h <;>
    simp [DogWalk.body, lastAngle_append, lastAngle_ServoAngleSet, SERVO_LF, SERVO_RF,
      SERVO_LB, SERVO_RB]

/-! ## Servo layer -/

/-- C2: for a channel id outside 0..3, or a channel whose pin is the sentinel -1,
`ServoWrite` returns the servo state as it was (no actuator command, every position kept),
and so does the whole of `ServoAngleSet`, for every angle and delay. -/
theorem ServoWrite_detached_noop (o : Otto) (servo_id angle delay_time : Int)
    (h : servo_id < 0 ∨ servo_id > 3 ∨ o.servo_pins_ servo_id = -1) :
    ServoWrite o servo_id angle = o ∧
      o.run (ServoAngleSet servo_id angle delay_time) = o ∧
      (o.run (ServoAngleSet servo_id angle delay_time)).actuator = o.actuator ∧
      ∀ i : Int, (o.run (ServoAngleSet servo_id angle delay_time)).servo_ i = o.servo_ i := by
  have hguard : servo_id < 0 ∨ servo_id ≥ SERVO_COUNT ∨ o.servo_pins_ servo_id = -1 := by
    simp only [SERVO_COUNT]
    omega
  have hw : ServoWrite o servo_id angle = o := by
    simp only [ServoWrite, if_pos hguard]
  have hr : o.run (ServoAngleSet servo_id angle delay_time) = o := by
    unfold ServoAngleSet Otto.run
    split_ifs <;> simp [Otto.step, hw]
  refine ⟨hw, hr, ?_, ?_⟩
  · rw [hr]
  · intro i
    rw [hr]

/-- Witness of C2: a write to the unconnected left back leg, and one to channel 7. -/
theorem ServoWrite_detached_noop_witness :
    ServoWrite otto0 2 30 = otto0 ∧ (otto0.run (ServoAngleSet 7 30 100)).actuator = [] :=
  ⟨(ServoWrite_detached_noop otto0 2 30 0 (by decide)).1,
    (ServoWrite_detached_noop otto0 7 30 100 (by decide)).2.2.1⟩

/-! ## Walking gaits -/

/-- C3: for every step count `n >= 0` and every delay, the servo writes of `DogWalk` are
those of the stand-up preamble followed by exactly `n` copies of the four sub-phase cycle,
the last nominal angle written to each of the four legs is 90, and `DogWalk(2, 150)` gives
exactly two cycles. -/
theorem DogWalk_cycles (n : Nat) (speed_delay : Int) :
    writesOf (DogWalk n speed_delay) =
        writesOf StandUp ++ (List.replicate n walkCycle).flatten ∧
      (∀ servo_id : Int, 0 ≤ servo_id ∧ servo_id ≤ 3 →
        lastAngle servo_id (DogWalk n speed_delay) = some 90) ∧
      writesOf (DogWalk 2 150) = writesOf StandUp ++ walkCycle ++ walkCycle := by
  have hbody : ∀ d, writesOf (DogWalk.body d) = walkCycle := by
    intro d
    simp only [DogWalk.body, writesOf_append, writesOf_ServoAngleSet]
    rfl
  refine ⟨?_, ?_, by decide⟩
  · simp only [DogWalk, writesOf_append, writesOf_repeatLoop, hbody]
    simp [writesOf]
  · intro servo_id h
    unfold DogWalk
    induction n with
    | zero =>
      have h1 := lastAngle_StandUp servo_id h
      simp only [repeatLoop, Nat.cast_zero, Int.toNat_zero, List.replicate_zero,
        List.flatten_nil, List.append_nil]
      rw [lastAngle_append, h1]
      rfl
    | succ k _ =>
      rw [repeatLoop_succ, ← List.append_assoc]
      exact lastAngle_append_some _ _ _ _ (lastAngle_DogWalk_body servo_id speed_delay h)

/-- Witness of C3: three steps at delay 150 end with nominal 90 on the right back leg. -/
theorem DogWalk_cycles_witness : lastAngle 3 (DogWalk 3 150) = some 90 :=
  (DogWalk_cycles 3 150).2.1 3 (by decide)

/-- C4: for every step count and delay, the command sequence of `DogWalkBack` is that of
`DogWalk` with every nominal angle `a` replaced by `180 - a`: same channels, same order,
same delays. -/
theorem DogWalkBack_reflects_DogWalk (steps speed_delay : Int) :
    DogWalkBack steps speed_delay = (DogWalk steps speed_delay).map reflect := by
  have hbody : (DogWalk.body speed_delay).map reflect = DogWalkBack.body speed_delay := by
    simp only [DogWalk.body, DogWalkBack.body, List.map_append, map_reflect_ServoAngleSet]
    rfl
  have hstand : StandUp.map reflect = StandUp := by decide
  simp only [DogWalk, DogWalkBack, List.map_append, map_repeatLoop, hbody, hstand]
  rfl



/-! ## Lemmas on the controller -/

@[simp]
theorem emit_trace (c : OttoController) (evs : List Event) :
    (c.emit evs).trace = c.trace ++ evs := rfl

@[simp]
theorem emit_otto (c : OttoController) (evs : List Event) :
    (c.emit evs).otto_ = c.otto_.run (cmdsOf evs) := rfl

@[simp]
theorem emit_idle_mode (c : OttoController) (evs : List Event) :
    (c.emit evs).idle_mode_ = c.idle_mode_ := rfl

@[simp]
theorem emit_idle_ticks (c : OttoController) (evs : List Event) :
    (c.emit evs).idle_no_action_ticks_ = c.idle_no_action_ticks_ := rfl

@[simp]
theorem emit_emoji_tick (c : OttoController) (evs : List Event) :
    (c.emit evs).idle_emoji_tick_ = c.idle_emoji_tick_ := rfl

@[simp]
theorem emit_in_progress (c : OttoController) (evs : List Event) :
    (c.emit evs).is_action_in_progress_ = c.is_action_in_progress_ := rfl

@[simp]
theorem emit_queue (c : OttoController) (evs : List Event) :
    (c.emit evs).action_queue_ = c.action_queue_ := rfl

theorem timeout_quiet (env : Env) (c : OttoController) (r : Nat)
    (h : c.idle_mode_ = false) (hlt : incInt32 c.idle_no_action_ticks_ < 120) :
    ActionTask.timeout env c r =
      { c with idle_no_action_ticks_ := incInt32 c.idle_no_action_ticks_ } := by
  simp [ActionTask.timeout, h, not_le.mpr hlt]

theorem timeout_enter (env : Env) (c : OttoController) (r : Nat)
    (h : c.idle_mode_ = false) (hge : 120 ≤ incInt32 c.idle_no_action_ticks_) :
    ActionTask.timeout env c r =
      (({ c with
          idle_no_action_ticks_ := incInt32 c.idle_no_action_ticks_
          idle_mode_ := true
          idle_emoji_tick_ := 0 }.emit (call (DogLieDown 1500))).emit
        (SetEmotion env (kIdleEmojis r))) := by
  simp [ActionTask.timeout, h, hge]

theorem timeout_idle_keep (env : Env) (c : OttoController) (r : Nat)
    (h : c.idle_mode_ = true) (hlt : incUInt32 c.idle_emoji_tick_ < 10) :
    ActionTask.timeout env c r =
      { c with
        idle_no_action_ticks_ := incInt32 c.idle_no_action_ticks_
        idle_emoji_tick_ := incUInt32 c.idle_emoji_tick_ } := by
  simp [ActionTask.timeout, h, not_le.mpr hlt]

theorem timeout_idle_emit (env : Env) (c : OttoController) (r : Nat)
    (h : c.idle_mode_ = true) (hge : 10 ≤ incUInt32 c.idle_emoji_tick_) :
    ActionTask.timeout env c r =
      { c with
        idle_no_action_ticks_ := incInt32 c.idle_no_action_ticks_
        idle_emoji_tick_ := 0 }.emit (SetEmotion env (kIdleEmojis r)) := by
  simp [ActionTask.timeout, h, hge]



theorem timeouts_concat (env : Env) (c : OttoController) (rs : List Nat) (r : Nat) :
    ActionTask.timeouts env c (rs ++ [r]) =
      ActionTask.timeout env (ActionTask.timeouts env c rs) r := by
  simp [ActionTask.timeouts, List.foldl_append]

theorem timeouts_summary (env : Env) (c : OttoController)
    (h1 : c.idle_mode_ = false) (h2 : c.idle_no_action_ticks_ = 0) (rs : List Nat) :
    (rs.length < 120 →
        (ActionTask.timeouts env c rs).idle_mode_ = false ∧
        (ActionTask.timeouts env c rs).idle_no_action_ticks_ = rs.length ∧
        (ActionTask.timeouts env c rs).idle_emoji_tick_ = c.idle_emoji_tick_ ∧
        (ActionTask.timeouts env c rs).trace = c.trace) ∧
      (120 ≤ rs.length →
        (ActionTask.timeouts env c rs).idle_mode_ = true ∧
        (ActionTask.timeouts env c rs).idle_emoji_tick_ = (rs.length - 120) % 10 ∧
        ∃ es : List Emotion,
          es.length = 1 + (rs.length - 120) / 10 ∧
          (∀ e ∈ es, ∃ r, e = kIdleEmojis r) ∧
          (ActionTask.timeouts env c rs).trace =
            c.trace ++ call (DogLieDown 1500) ++ es.flatMap (SetEmotion env)) := by
  induction rs using List.reverseRecOn with
  | nil =>
    refine ⟨fun _ => ⟨h1, ?_, rfl, rfl⟩, fun h => absurd h (by simp)⟩
    simpa [ActionTask.timeouts] using h2
  | append_singleton rs r ih =>
    rw [timeouts_concat]
    simp only [List.length_append, List.length_singleton]
    obtain ⟨ihlt, ihge⟩ := ih
    rcases Nat.lt_or_ge rs.length 120 with hlt | hge
    · obtain ⟨hm, ht, he, htr⟩ := ihlt hlt
      have hinc : incInt32 (ActionTask.timeouts env c rs).idle_no_action_ticks_ =
          rs.length + 1 := by
        rw [ht]
        unfold incInt32
        omega
      rcases Nat.lt_or_ge (rs.length + 1) 120 with hlt1 | hge1
      · have hq := timeout_quiet env _ r hm (by rw [hinc]; omega)
        refine ⟨fun _ => ?_, fun h => absurd h (by omega)⟩
        rw [hq]
        refine ⟨hm, ?_, he, htr⟩
        simp only [hinc]
        push_cast
        rfl
      · have hq := timeout_enter env _ r hm (by rw [hinc]; omega)
        refine ⟨fun h => absurd h (by omega), fun _ => ?_⟩
        rw [hq]
        refine ⟨rfl, ?_, [kIdleEmojis r], ?_, ?_, ?_⟩
        · simp only [emit_emoji_tick]
          omega
        · simp only [List.length_singleton]
          omega
        · intro e he'
          exact ⟨r, by simpa using he'⟩
        · simp [htr]
    · obtain ⟨hm, he, es, hlen, hmem, htr⟩ := ihge hge
      refine ⟨fun h => absurd h (by omega), fun _ => ?_⟩
      have hinc : incUInt32 (ActionTask.timeouts env c rs).idle_emoji_tick_ =
          (rs.length - 120) % 10 + 1 := by
        rw [he]
        unfold incUInt32
        omega
      rcases Nat.lt_or_ge ((rs.length - 120) % 10 + 1) 10 with hlt1 | hge1
      · have hq := timeout_idle_keep env _ r hm (by rw [hinc]; exact hlt1)
        rw [hq]
        refine ⟨hm, ?_, es, ?_, hmem, htr⟩
        · simp only [hinc]
          omega
        · rw [hlen]
          omega
      · have hq := timeout_idle_emit env _ r hm (by rw [hinc]; exact hge1)
        rw [hq]
        refine ⟨hm, ?_, es ++ [kIdleEmojis r], ?_, ?_, ?_⟩
        · simp only [emit_emoji_tick]
          omega
        · simp only [List.length_append, List.length_singleton, hlen]
          omega
        · intro e he'
          rcases List.mem_append.mp he' with h | h
          · exact hmem e h
          · exact ⟨r, by simpa using h⟩
        · simp [htr, List.flatMap_append]



theorem cmdsOf_append (xs ys : List Event) : cmdsOf (xs ++ ys) = cmdsOf xs ++ cmdsOf ys := by
  induction xs with
  | nil => rfl
  | cons e es ih => cases e <;> simp [cmdsOf, ih]

theorem executedOf_append (xs ys : List Event) :
    executedOf (xs ++ ys) = executedOf xs ++ executedOf ys := by
  induction xs with
  | nil => rfl
  | cons e es ih => cases e <;> simp [executedOf, ih]

theorem emotionsOf_append (xs ys : List Event) :
    emotionsOf (xs ++ ys) = emotionsOf xs ++ emotionsOf ys := by
  induction xs with
  | nil => rfl
  | cons e es ih => cases e <;> simp [emotionsOf, ih]

theorem cmdsOf_call (cmds : List Cmd) : cmdsOf (call cmds) = cmds := by
  induction cmds with
  | nil => rfl
  | cons c cs ih => simpa [call, cmdsOf] using ih

theorem executedOf_call (cmds : List Cmd) : executedOf (call cmds) = [] := by
  induction cmds with
  | nil => rfl
  | cons c cs ih => simpa [call, executedOf] using ih

theorem emotionsOf_call (cmds : List Cmd) : emotionsOf (call cmds) = [] := by
  induction cmds with
  | nil => rfl
  | cons c cs ih => simpa [call, emotionsOf] using ih

theorem cmdsOf_SetEmotion (env : Env) (e : Emotion) : cmdsOf (SetEmotion env e) = [] := by
  unfold SetEmotion
  split_ifs <;> rfl

theorem executedOf_SetEmotion (env : Env) (e : Emotion) :
    executedOf (SetEmotion env e) = [] := by
  unfold SetEmotion
  split_ifs <;> rfl

theorem emotionsOf_SetEmotion (env : Env) (e : Emotion) :
    emotionsOf (SetEmotion env e) = if env.display then [e] else [] := by
  unfold SetEmotion
  split_ifs <;> rfl

theorem cmdsOf_flatMap_SetEmotion (env : Env) (es : List Emotion) :
    cmdsOf (es.flatMap (SetEmotion env)) = [] := by
  induction es with
  | nil => rfl
  | cons e es ih => simp [List.flatMap_cons, cmdsOf_append, cmdsOf_SetEmotion, ih]

theorem emotionsOf_flatMap_SetEmotion (env : Env) (es : List Emotion) :
    emotionsOf (es.flatMap (SetEmotion env)) = if env.display then es else [] := by
  induction es with
  | nil => simp [emotionsOf]
  | cons e es ih =>
    simp only [List.flatMap_cons, emotionsOf_append, emotionsOf_SetEmotion, ih]
    split_ifs <;> rfl

theorem executedOf_nil : executedOf [] = [] := rfl

theorem executedOf_cmd (c : Cmd) : executedOf [Event.cmd c] = [] := rfl

theorem executedOf_dispatch (env : Env) (params : OttoActionParams) :
    executedOf (ActionTask.dispatch env params) = [] := by
  simp only [ActionTask.dispatch, apply_ite executedOf, executedOf_append, executedOf_call,
    executedOf_SetEmotion, executedOf_nil, executedOf_cmd, List.append_nil, ite_self]

theorem Otto_run_append (o : Otto) (xs ys : List Cmd) :
    o.run (xs ++ ys) = (o.run xs).run ys := by
  simp [Otto.run, List.foldl_append]

theorem received_trace (env : Env) (c : OttoController) (params : OttoActionParams) :
    (ActionTask.received env c params).trace = c.trace ++ requestTrace env params := by
  simp [ActionTask.received, ActionTask.finish, ActionTask.begin, requestTrace]

theorem received_queue (env : Env) (c : OttoController) (params : OttoActionParams) :
    (ActionTask.received env c params).action_queue_ = c.action_queue_ := rfl

theorem received_otto (env : Env) (c : OttoController) (params : OttoActionParams) :
    (ActionTask.received env c params).otto_ =
      c.otto_.run (cmdsOf (requestTrace env params)) := by
  simp only [ActionTask.received, ActionTask.finish, ActionTask.begin, requestTrace,
    emit_otto, cmdsOf_append, Otto_run_append]

theorem timeout_queue (env : Env) (c : OttoController) (r : Nat) :
    (ActionTask.timeout env c r).action_queue_ = c.action_queue_ := by
  unfold ActionTask.timeout
  simp only
  split_ifs <;> rfl

theorem timeout_executed (env : Env) (c : OttoController) (r : Nat) :
    executedOf (ActionTask.timeout env c r).trace = executedOf c.trace := by
  unfold ActionTask.timeout
  simp only
  split_ifs <;>
    simp [executedOf_append, executedOf_call, executedOf_SetEmotion]

theorem run_empty_queue (env : Env) (c : OttoController) (rs : List Nat)
    (hq : c.action_queue_ = some []) :
    ActionTask.run env c rs = ActionTask.timeouts env c rs := by
  induction rs generalizing c with
  | nil => rfl
  | cons r rs ih =>
    have hiter : ActionTask.iter env c r = ActionTask.timeout env c r := by
      simp [ActionTask.iter, hq]
    simp only [ActionTask.run, ActionTask.timeouts, List.foldl_cons, hiter]
    exact ih _ (by rw [timeout_queue, hq])

theorem timeouts_executed (env : Env) (c : OttoController) (rs : List Nat) :
    executedOf (ActionTask.timeouts env c rs).trace = executedOf c.trace := by
  induction rs generalizing c with
  | nil => rfl
  | cons r rs ih =>
    simp only [ActionTask.timeouts, List.foldl_cons]
    exact (ih _).trans (timeout_executed env c r)

theorem ActionTask_run_append (env : Env) (c : OttoController) (rs more : List Nat) :
    ActionTask.run env c (rs ++ more) = ActionTask.run env (ActionTask.run env c rs) more := by
  induction rs generalizing c with
  | nil => rfl
  | cons r rs ih => simp only [List.cons_append, ActionTask.run, List.append_eq, ih]

/-! ## The executor -/

/-- C5: with the pending requests `r1, ..., rn` in the queue and no concurrent producer, `n`
iterations of `ActionTask` produce the concatenation, in queue order, of the complete traces
of `r1, ..., rn` (log line, all commands and delays of the request, settle delay), leave the
queue empty, and however many iterations follow, the requests logged as dequeued are exactly
`r1, ..., rn` once each. -/
theorem ActionTask_fifo (env : Env) (c : OttoController) (reqs : List OttoActionParams)
    (rs : List Nat) (hq : c.action_queue_ = some reqs) (hlen : rs.length = reqs.length) :
    (ActionTask.run env c rs).trace = c.trace ++ reqs.flatMap (requestTrace env) ∧
      (ActionTask.run env c rs).otto_ =
        c.otto_.run (cmdsOf (reqs.flatMap (requestTrace env))) ∧
      (ActionTask.run env c rs).action_queue_ = some [] ∧
      ∀ more : List Nat,
        executedOf (ActionTask.run env c (rs ++ more)).trace =
          executedOf c.trace ++ reqs.map (fun p => (p.action_type, p.steps, p.speed)) := by
  have key : ∀ (reqs : List OttoActionParams) (c : OttoController) (rs : List Nat),
      c.action_queue_ = some reqs → rs.length = reqs.length →
      (ActionTask.run env c rs).trace = c.trace ++ reqs.flatMap (requestTrace env) ∧
      (ActionTask.run env c rs).otto_ =
        c.otto_.run (cmdsOf (reqs.flatMap (requestTrace env))) ∧
      (ActionTask.run env c rs).action_queue_ = some [] := by
    intro reqs
    induction reqs with
    | nil =>
      intro c rs hq hlen
      have : rs = [] := List.length_eq_zero.mp hlen
      subst this
      exact ⟨by simp [ActionTask.run], by simp [ActionTask.run, cmdsOf, Otto.run], hq⟩
    | cons p ps ih =>
      intro c rs hq hlen
      cases rs with
      | nil => simp at hlen
      | cons r rs =>
        have hiter : ActionTask.iter env c r =
            ActionTask.received env { c with action_queue_ := some ps } p := by
          simp [ActionTask.iter, hq]
        obtain ⟨h1, h2, h3⟩ := ih (ActionTask.iter env c r) rs
          (by rw [hiter, received_queue]) (by simpa using hlen)
        refine ⟨?_, ?_, ?_⟩
        · simp only [ActionTask.run]
          rw [h1, hiter, received_trace, List.flatMap_cons, List.append_assoc]
        · simp only [ActionTask.run]
          rw [h2, hiter, received_otto, List.flatMap_cons, cmdsOf_append, Otto_run_append]
        · simpa only [ActionTask.run] using h3
  obtain ⟨h1, h2, h3⟩ := key reqs c rs hq hlen
  refine ⟨h1, h2, h3, fun more => ?_⟩
  rw [ActionTask_run_append, run_empty_queue env _ more h3, timeouts_executed, h1, executedOf_append]
  congr 1
  clear h1 h2 h3 hq hlen key
  induction reqs with
  | nil => rfl
  | cons p ps ih =>
    have hp : executedOf (requestTrace env p) = [(p.action_type, p.steps, p.speed)] := by
      simp only [requestTrace, executedOf_append, executedOf_dispatch, executedOf_cmd,
        List.append_nil]
      rfl
    rw [List.flatMap_cons, executedOf_append, ih, hp, List.map_cons]
    rfl



/-- Witness of C5: the queue walk(3), turn(2), jump(1) is drained in that order. -/
theorem ActionTask_fifo_witness :
    (ActionTask.run envDisplay ctrlPending [0, 0, 0]).action_queue_ = some [] ∧
      executedOf (ActionTask.run envDisplay ctrlPending ([0, 0, 0] ++ [0, 0])).trace =
        [(1, 3, 150), (3, 2, 150), (7, 1, 200)] :=
  ⟨(ActionTask_fifo envDisplay ctrlPending pending3 [0, 0, 0] rfl rfl).2.2.1,
    ((ActionTask_fifo envDisplay ctrlPending pending3 [0, 0, 0] rfl rfl).2.2.2 [0, 0]).trans
      (by decide)⟩

theorem StopAll_fields (c : OttoController) (q : List OttoActionParams)
    (hq : c.action_queue_ = some q) :
    (StopAll c).action_queue_ = some [] ∧ (StopAll c).trace = c.trace ++ call Home ∧
      (StopAll c).is_action_in_progress_ = false := by
  unfold StopAll
  rw [hq]
  exact ⟨rfl, rfl, rfl⟩

/-- C6: for every content of the queue, `StopAll` leaves the queue empty, issues exactly the
calls of `Home` (last nominal angle 90 on each of the four legs), clears
`is_action_in_progress_`, and no later iteration of the executor dequeues a request. -/
theorem StopAll_clears_queue (env : Env) (c : OttoController) (q : List OttoActionParams)
    (hq : c.action_queue_ = some q) :
    (StopAll c).action_queue_ = some [] ∧
      (StopAll c).trace = c.trace ++ call Home ∧
      (∀ servo_id : Int, 0 ≤ servo_id ∧ servo_id ≤ 3 →
        lastAngle servo_id (cmdsOf (StopAll c).trace) = some 90) ∧
      (StopAll c).is_action_in_progress_ = false ∧
      ∀ rs : List Nat,
        executedOf (ActionTask.run env (StopAll c) rs).trace = executedOf c.trace := by
  obtain ⟨h1, h2, h3⟩ := StopAll_fields c q hq
  refine ⟨h1, h2, ?_, h3, ?_⟩
  · intro servo_id h
    rw [h2, cmdsOf_append, cmdsOf_call]
    exact lastAngle_append_some _ _ _ _ (lastAngle_StandUp servo_id h)
  · intro rs
    rw [run_empty_queue env _ rs h1, timeouts_executed, h2, executedOf_append,
      executedOf_call, List.append_nil]

/-- Witness of C6: the stop scenario with walk(3), turn(2), jump(1) pending. -/
theorem StopAll_clears_queue_witness :
    ctrlPending.action_queue_ = some pending3 ∧
      (StopAll ctrlPending).action_queue_ = some [] ∧
      executedOf (ActionTask.run envDisplay (StopAll ctrlPending) [0, 0, 0, 0]).trace = [] :=
  ⟨rfl, (StopAll_clears_queue envDisplay ctrlPending pending3 rfl).1,
    (StopAll_clears_queue envDisplay ctrlPending pending3 rfl).2.2.2.2 [0, 0, 0, 0]⟩

theorem idle_mode_iff (env : Env) (c : OttoController)
    (h1 : c.idle_mode_ = false) (h2 : c.idle_no_action_ticks_ = 0) (rs : List Nat) :
    (ActionTask.timeouts env c rs).idle_mode_ = true ↔ 120 ≤ rs.length := by
  obtain ⟨hlt, hge⟩ := timeouts_summary env c h1 h2 rs
  constructor
  · intro h
    by_contra hn
    have := (hlt (by omega)).1
    rw [h] at this
    exact Bool.noConfusion this
  · intro h
    exact (hge h).1

/-- C7 (amended): from `idle_mode_ = false` and `idle_no_action_ticks_ = 0`, after `n`
consecutive timeouts `idle_mode_` holds iff `n >= 120`; the calls of `DogLieDown(1500)`
(nominal 5 on all four legs) are the only primitive calls and occur once, from the 120th
timeout on; no emotion is sent before the 120th timeout, and at the 120th exactly one is
sent when a display exists and none when `GetDisplay()` is null. -/
theorem idle_entry_at_120 (env : Env) (c : OttoController)
    (h1 : c.idle_mode_ = false) (h2 : c.idle_no_action_ticks_ = 0) (rs : List Nat) :
    ((ActionTask.timeouts env c rs).idle_mode_ = true ↔ 120 ≤ rs.length) ∧
      cmdsOf (ActionTask.timeouts env c rs).trace =
        cmdsOf c.trace ++ (if 120 ≤ rs.length then DogLieDown 1500 else []) ∧
      writesOf (DogLieDown 1500) =
        [(SERVO_LF, 5), (SERVO_RF, 5), (SERVO_LB, 5), (SERVO_RB, 5)] ∧
      (rs.length < 120 →
        emotionsOf (ActionTask.timeouts env c rs).trace = emotionsOf c.trace) ∧
      (rs.length = 120 →
        ∃ e : Emotion, emotionsOf (ActionTask.timeouts env c rs).trace =
          emotionsOf c.trace ++ (if env.display then [e] else [])) := by
  obtain ⟨hlt, hge⟩ := timeouts_summary env c h1 h2 rs
  refine ⟨idle_mode_iff env c h1 h2 rs, ?_, by decide, ?_, ?_⟩
  · rcases Nat.lt_or_ge rs.length 120 with h | h
    · rw [(hlt h).2.2.2, if_neg (by omega), List.append_nil]
    · obtain ⟨_, _, es, _, _, htr⟩ := hge h
      rw [htr, if_pos h, cmdsOf_append, cmdsOf_append, cmdsOf_call,
        cmdsOf_flatMap_SetEmotion, List.append_nil]
  · intro h
    rw [(hlt h).2.2.2]
  · intro h
    obtain ⟨_, _, es, hlen, _, htr⟩ := hge (by omega)
    have hlen1 : es.length = 1 := by
      rw [hlen, h]
    obtain ⟨e, he⟩ := List.length_eq_one.mp hlen1
    refine ⟨e, ?_⟩
    rw [htr, emotionsOf_append, emotionsOf_append, emotionsOf_call,
      emotionsOf_flatMap_SetEmotion, he, List.append_nil]

/-- Witness of C7: idle mode is off after 119 timeouts and on after 120. -/
theorem idle_entry_at_120_witness :
    (ActionTask.timeouts envDisplay ctrl0 (List.replicate 119 7)).idle_mode_ ≠ true ∧
      (ActionTask.timeouts envDisplay ctrl0 (List.replicate 120 7)).idle_mode_ = true :=
  ⟨fun h => absurd
      ((idle_entry_at_120 envDisplay ctrl0 rfl rfl (List.replicate 119 7)).1.mp h)
      (by simp),
    (idle_entry_at_120 envDisplay ctrl0 rfl rfl (List.replicate 120 7)).1.mpr (by simp)⟩

/-- Counterexample to C7 as stated: without a display, the 120th timeout enters idle mode
and no emotion is emitted. -/
theorem idle_entry_no_display_counterexample :
    (ActionTask.timeouts envNoDisplay ctrl0 (List.replicate 120 7)).idle_mode_ = true ∧
      (emotionsOf
        (ActionTask.timeouts envNoDisplay ctrl0 (List.replicate 120 7)).trace).length ≠ 1 := by
  obtain ⟨_, hge⟩ := timeouts_summary envNoDisplay ctrl0 rfl rfl (List.replicate 120 7)
  obtain ⟨hm, _, es, _, _, htr⟩ := hge (by simp)
  refine ⟨hm, ?_⟩
  rw [htr, emotionsOf_append, emotionsOf_append, emotionsOf_call,
    emotionsOf_flatMap_SetEmotion]
  show (([] : List Emotion) ++ [] ++ []).length ≠ _
  decide



theorem kIdleEmojis_mem (r : Nat) : kIdleEmojis r ∈ idleEmotions := by
  have h : r % 5 = 0 ∨ r % 5 = 1 ∨ r % 5 = 2 ∨ r % 5 = 3 ∨ r % 5 = 4 := by omega
  unfold kIdleEmojis idleEmotions
  rcases h with h | h | h | h | h <;> rw [h] <;> simp

/-- C8 (amended): once idle mode was entered at the 120th consecutive timeout, each further
timeout sends an emotion exactly when it is the 130th, 140th, ...; after `n >= 120` timeouts
`1 + (n - 120) / 10` labels have been chosen, each one of happy, winking, cool, sleepy,
surprised whatever the random source returns, and they have all been sent when a display
exists and none when `GetDisplay()` is null; `idle_emoji_tick_` is below 10. -/
theorem idle_emotion_every_10 (env : Env) (c : OttoController)
    (h1 : c.idle_mode_ = false) (h2 : c.idle_no_action_ticks_ = 0) (rs : List Nat)
    (hn : 120 ≤ rs.length) :
    (∃ es : List Emotion,
        es.length = 1 + (rs.length - 120) / 10 ∧
        (∀ e ∈ es, e ∈ idleEmotions) ∧
        emotionsOf (ActionTask.timeouts env c rs).trace =
          emotionsOf c.trace ++ (if env.display then es else [])) ∧
      (ActionTask.timeouts env c rs).idle_emoji_tick_ < 10 ∧
      (∀ r : Nat, (ActionTask.timeouts env c (rs ++ [r])).trace =
        (ActionTask.timeouts env c rs).trace ++
          (if (rs.length + 1 - 120) % 10 = 0 then SetEmotion env (kIdleEmojis r) else [])) ∧
      ∀ r : Nat, kIdleEmojis r ∈ idleEmotions := by
  obtain ⟨hm, he, es, hlen, hmem, htr⟩ := (timeouts_summary env c h1 h2 rs).2 hn
  refine ⟨⟨es, hlen, ?_, ?_⟩, ?_, ?_, kIdleEmojis_mem⟩
  · intro e hes
    obtain ⟨r, hr⟩ := hmem e hes
    rw [hr]
    exact kIdleEmojis_mem r
  · rw [htr, emotionsOf_append, emotionsOf_append, emotionsOf_call,
      emotionsOf_flatMap_SetEmotion, List.append_nil]
  · rw [he]
    omega
  · intro r
    have hinc : incUInt32 (ActionTask.timeouts env c rs).idle_emoji_tick_ =
        (rs.length - 120) % 10 + 1 := by
      rw [he]
      unfold incUInt32
      omega
    rw [timeouts_concat]
    rcases Nat.lt_or_ge ((rs.length - 120) % 10 + 1) 10 with hlt1 | hge1
    · rw [timeout_idle_keep env _ r hm (by rw [hinc]; exact hlt1), if_neg (by omega),
        List.append_nil]
    · rw [timeout_idle_emit env _ r hm (by rw [hinc]; exact hge1), if_pos (by omega)]
      rfl

/-- Witness of C8: with a display, 130 timeouts have sent two idle emotions. -/
theorem idle_emotion_every_10_witness :
    (emotionsOf (ActionTask.timeouts envDisplay ctrl0 (List.replicate 130 7)).trace).length
      = 2 := by
  obtain ⟨es, hlen, _, htr⟩ :=
    (idle_emotion_every_10 envDisplay ctrl0 rfl rfl (List.replicate 130 7) (by simp)).1
  rw [htr]
  show (([] : List Emotion) ++ es).length = 2
  rw [List.nil_append, hlen, List.length_replicate]

/-- Counterexample to C8 as stated: without a display, 130 timeouts have emitted no
emotion, not `1 + (130 - 120) / 10`. -/
theorem idle_emotion_no_display_counterexample :
    (emotionsOf (ActionTask.timeouts envNoDisplay ctrl0 (List.replicate 130 7)).trace).length
      ≠ 1 + (130 - 120) / 10 := by
  obtain ⟨_, _, es, _, _, htr⟩ :=
    (timeouts_summary envNoDisplay ctrl0 rfl rfl (List.replicate 130 7)).2 (by simp)
  rw [htr, emotionsOf_append, emotionsOf_append, emotionsOf_call,
    emotionsOf_flatMap_SetEmotion]
  show (([] : List Emotion) ++ [] ++ []).length ≠ _
  decide

/-- C9: for every executor state and every dequeued request, whatever its action kind,
the iteration is the receive branch; before the dispatch `is_action_in_progress_` is true
and `idle_no_action_ticks_`, `idle_mode_`, `idle_emoji_tick_` are reset, they stay so during
the dispatch, at the end of the iteration `is_action_in_progress_` is false again, and
idle mode is next entered exactly at the 120th consecutive timeout that follows. -/
theorem received_resets_idle (env : Env) (c : OttoController) (params : OttoActionParams)
    (pending : List OttoActionParams) (r : Nat) :
    ActionTask.iter env { c with action_queue_ := some (params :: pending) } r =
        ActionTask.received env { c with action_queue_ := some pending } params ∧
      ActionTask.received env c params =
        ActionTask.finish ((ActionTask.begin c params).emit (ActionTask.dispatch env params)) ∧
      ((ActionTask.begin c params).is_action_in_progress_ = true ∧
        (ActionTask.begin c params).idle_no_action_ticks_ = 0 ∧
        (ActionTask.begin c params).idle_mode_ = false ∧
        (ActionTask.begin c params).idle_emoji_tick_ = 0) ∧
      (((ActionTask.begin c params).emit
          (ActionTask.dispatch env params)).is_action_in_progress_ = true ∧
        ((ActionTask.begin c params).emit
          (ActionTask.dispatch env params)).idle_mode_ = false) ∧
      ((ActionTask.received env c params).is_action_in_progress_ = false ∧
        (ActionTask.received env c params).idle_no_action_ticks_ = 0 ∧
        (ActionTask.received env c params).idle_mode_ = false ∧
        (ActionTask.received env c params).idle_emoji_tick_ = 0) ∧
      ∀ rs : List Nat,
        (ActionTask.timeouts env (ActionTask.received env c params) rs).idle_mode_ = true ↔
          120 ≤ rs.length :=
  ⟨rfl, rfl, ⟨rfl, rfl, rfl, rfl⟩, ⟨rfl, rfl⟩, ⟨rfl, rfl, rfl, rfl⟩,
    fun rs => idle_mode_iff env _ rfl rfl rs⟩

/-- C10 (the code as it is): the handler of `self.dog.walk_forward` calls `DogWalk` and
writes no field of the executor state; on a controller in idle mode with 125 idle ticks it
leaves `idle_mode_ = true` and `idle_no_action_ticks_ = 125`. -/
theorem fast_path_keeps_idle_state (c : OttoController) (steps speed : Int) :
    (tool_dog_walk_forward c steps speed).idle_mode_ = c.idle_mode_ ∧
      (tool_dog_walk_forward c steps speed).idle_no_action_ticks_ = c.idle_no_action_ticks_ ∧
      (tool_dog_walk_forward c steps speed).idle_emoji_tick_ = c.idle_emoji_tick_ ∧
      (tool_dog_walk_forward c steps speed).trace = c.trace ++ call (DogWalk steps speed) ∧
      (tool_dog_walk_forward ctrlIdle 2 150).idle_mode_ = true ∧
      (tool_dog_walk_forward ctrlIdle 2 150).idle_no_action_ticks_ = 125 :=
  ⟨rfl, rfl, rfl, rfl, rfl, rfl⟩


/-! ## Terminal poses of the gait primitives -/

theorem writesOf_flatMap {α : Type} (l : List α) (f : α → List Cmd) :
    writesOf (l.flatMap f) = l.flatMap (fun k => writesOf (f k)) := by
  induction l with
  | nil => rfl
  | cons x xs ih => simp only [List.flatMap_cons, writesOf_append, ih]

theorem writesOf_ExecuteDogMovement (lf rf lb rb d : Int) :
    writesOf (ExecuteDogMovement lf rf lb rb d) =
      [(SERVO_LF, lf), (SERVO_RF, rf), (SERVO_LB, lb), (SERVO_RB, rb)] := by
  simp only [ExecuteDogMovement, writesOf_append, writesOf_ServoAngleSet]
  rfl

theorem lastAngle_congr (servo_id : Int) (xs ys : List Cmd) (h : writesOf xs = writesOf ys) :
    lastAngle servo_id xs = lastAngle servo_id ys := by
  have key : ∀ t : List Cmd, lastAngle servo_id t =
      lastAngle servo_id ((writesOf t).map (fun p => Cmd.write p.1 p.2)) := by
    intro t
    induction t with
    | nil => rfl
    | cons c cs ih =>
      cases c with
      | write i a => simp only [writesOf, List.map_cons, lastAngle, ih]
      | delay ms =>
        simp only [writesOf, lastAngle, ih]
        cases lastAngle servo_id (List.map (fun p => Cmd.write p.1 p.2) (writesOf cs)) <;> rfl
      | rest b =>
        simp only [writesOf, lastAngle, ih]
        cases lastAngle servo_id (List.map (fun p => Cmd.write p.1 p.2) (writesOf cs)) <;> rfl
  rw [key xs, key ys, h]

theorem finalPose_congr (xs ys : List Cmd) (h : writesOf xs = writesOf ys) :
    finalPose xs = finalPose ys := by
  simp only [finalPose, lastAngle_congr _ xs ys h]

theorem finalPose_append_of_all (xs ys : List Cmd) (a b c d : Int)
    (h : finalPose ys = (some a, some b, some c, some d)) :
    finalPose (xs ++ ys) = (some a, some b, some c, some d) := by
  simp only [finalPose, Prod.mk.injEq] at h ⊢
  obtain ⟨h1, h2, h3, h4⟩ := h
  exact ⟨lastAngle_append_some _ _ _ _ h1, lastAngle_append_some _ _ _ _ h2,
    lastAngle_append_some _ _ _ _ h3, lastAngle_append_some _ _ _ _ h4⟩

theorem finalPose_append_repeatLoop (pre body : List Cmd) (n : Int) (a b c d : Int)
    (hpre : finalPose pre = (some a, some b, some c, some d))
    (hbody : finalPose body = (some a, some b, some c, some d)) :
    finalPose (pre ++ repeatLoop n body) = (some a, some b, some c, some d) := by
  unfold repeatLoop
  induction n.toNat with
  | zero => simpa using hpre
  | succ k _ =>
    rw [List.replicate_succ', List.flatten_append, ← List.append_assoc]
    simp only [List.flatten_cons, List.flatten_nil, List.append_nil]
    exact finalPose_append_of_all _ _ _ _ _ _ hbody

theorem finalPose_StandUp : finalPose StandUp = (some 90, some 90, some 90, some 90) := by
  decide

theorem finalPose_ends_StandUp (xs : List Cmd) :
    finalPose (xs ++ StandUp) = (some 90, some 90, some 90, some 90) :=
  finalPose_append_of_all _ _ _ _ _ _ finalPose_StandUp

theorem finalPose_DogWalk_body (d : Int) :
    finalPose (DogWalk.body d) = (some 90, some 90, some 90, some 90) := by
  have h : writesOf (DogWalk.body d) = writesOf (DogWalk.body 0) := by
    simp only [DogWalk.body, writesOf_append, writesOf_ServoAngleSet]
  rw [finalPose_congr _ _ h]
  decide

theorem finalPose_DogWalkBack_body (d : Int) :
    finalPose (DogWalkBack.body d) = (some 90, some 90, some 90, some 90) := by
  have h : writesOf (DogWalkBack.body d) = writesOf (DogWalkBack.body 0) := by
    simp only [DogWalkBack.body, writesOf_append, writesOf_ServoAngleSet]
  rw [finalPose_congr _ _ h]
  decide

theorem finalPose_DogTurnLeft_body (d : Int) :
    finalPose (DogTurnLeft.body d) = (some 90, some 90, some 90, some 90) := by
  have h : writesOf (DogTurnLeft.body d) = writesOf (DogTurnLeft.body 0) := by
    simp only [DogTurnLeft.body, writesOf_append, writesOf_ServoAngleSet]
  rw [finalPose_congr _ _ h]
  decide

theorem finalPose_DogTurnRight_body (d : Int) :
    finalPose (DogTurnRight.body d) = (some 90, some 90, some 90, some 90) := by
  have h : writesOf (DogTurnRight.body d) = writesOf (DogTurnRight.body 0) := by
    simp only [DogTurnRight.body, writesOf_append, writesOf_ServoAngleSet]
  rw [finalPose_congr _ _ h]
  decide

theorem finalPose_pre_delay (pre : List Cmd) (ms : Int) (p) (h : finalPose pre = p) :
    finalPose (pre ++ [Cmd.delay ms]) = p := by
  rw [← h]
  apply finalPose_congr
  rw [writesOf_append]
  simp [writesOf]

/-- C11: for every step or cycle count and every delay, the last nominal angle written to
each of the four legs is 90 after `DogWalk`, `DogWalkBack`, `DogTurnLeft`, `DogTurnRight`,
`DogJump`, `DogBow`, `DogDance`, `DogDance4Feet` and `DogWaveRightFoot`, and after `DogSwing`
it is the sit pose: 90 on the front legs, 30 on the back legs. -/
theorem gaits_end_in_canonical_pose (n d : Int) :
    finalPose (DogWalk n d) = (some 90, some 90, some 90, some 90) ∧
      finalPose (DogWalkBack n d) = (some 90, some 90, some 90, some 90) ∧
      finalPose (DogTurnLeft n d) = (some 90, some 90, some 90, some 90) ∧
      finalPose (DogTurnRight n d) = (some 90, some 90, some 90, some 90) ∧
      finalPose (DogJump d) = (some 90, some 90, some 90, some 90) ∧
      finalPose (DogBow d) = (some 90, some 90, some 90, some 90) ∧
      finalPose (DogDance n d) = (some 90, some 90, some 90, some 90) ∧
      finalPose (DogDance4Feet n d) = (some 90, some 90, some 90, some 90) ∧
      finalPose (DogWaveRightFoot n d) = (some 90, some 90, some 90, some 90) ∧
      finalPose (DogSwing n d) = (some 90, some 90, some 30, some 30) := by
  have hpre : ∀ ms : Int,
      finalPose (StandUp ++ [Cmd.delay ms]) = (some 90, some 90, some 90, some 90) :=
    fun ms => finalPose_pre_delay _ _ _ finalPose_StandUp
  refine ⟨?_, ?_, ?_, ?_, ?_, ?_, ?_, ?_, ?_, ?_⟩
  · exact finalPose_append_repeatLoop _ _ _ _ _ _ _ (hpre 120) (finalPose_DogWalk_body d)
  · exact finalPose_append_repeatLoop _ _ _ _ _ _ _ (hpre 120) (finalPose_DogWalkBack_body d)
  · exact finalPose_append_repeatLoop _ _ _ _ _ _ _ (hpre 500) (finalPose_DogTurnLeft_body d)
  · exact finalPose_append_repeatLoop _ _ _ _ _ _ _ (hpre 500) (finalPose_DogTurnRight_body d)
  · exact finalPose_ends_StandUp _
  · exact finalPose_ends_StandUp _
  · exact finalPose_ends_StandUp _
  · unfold DogDance4Feet
    exact finalPose_pre_delay _ _ _ (finalPose_ends_StandUp _)
  · exact finalPose_ends_StandUp _
  · unfold DogSwing
    exact finalPose_append_of_all _ _ _ _ _ _ (by decide)


theorem finalPose_DogStretch_body (d : Int) :
    finalPose (DogStretch.body d) = (some 90, some 90, some 91, some 91) := by
  have h : DogStretch.body d =
      (forGt 90 10 (fun j => ExecuteDogMovement j j 90 90 d) ++
        forLt 10 90 (fun j => ExecuteDogMovement j j 90 90 d) ++
        forLt 90 170 (fun j => ExecuteDogMovement 90 90 j j d) ++
        (List.range 79).flatMap (fun k => ExecuteDogMovement 90 90 (170 - k) (170 - k) d)) ++
      ExecuteDogMovement 90 90 91 91 d := by
    have h80 : forGt 170 90 (fun j => ExecuteDogMovement 90 90 j j d) =
        (List.range 79).flatMap (fun k => ExecuteDogMovement 90 90 (170 - k) (170 - k) d) ++
          ExecuteDogMovement 90 90 91 91 d := by
      have hr : (170 - 90 : Int).toNat = 79 + 1 := by decide
      unfold forGt
      rw [hr, List.range_succ, List.flatMap_append]
      simp
    unfold DogStretch.body
    rw [h80]
    simp only [List.append_assoc]
  rw [h]
  apply finalPose_append_of_all
  have hw : writesOf (ExecuteDogMovement 90 90 91 91 d) =
      writesOf (ExecuteDogMovement 90 90 91 91 0) := by
    simp only [writesOf_ExecuteDogMovement]
  rw [finalPose_congr _ _ hw]
  decide

theorem finalPose_DogStretch_succ (k : Nat) (d : Int) :
    finalPose (DogStretch ((k + 1 : Nat) : Int) d) = (some 90, some 90, some 91, some 91) := by
  unfold DogStretch
  rw [repeatLoop_succ, ← List.append_assoc]
  exact finalPose_append_of_all _ _ _ _ _ _ (finalPose_DogStretch_body d)

/-- C12 (the code as it is): for every `cycles >= 1` the last nominal angles written by
`DogStretch` are 90 on the front legs and 91 on the back legs, because the last loop
`for (j = 170; j > 90; j--)` stops at 91; `DogStretch(1, 15)` ends in that pose, which is
not the stand pose. -/
theorem DogStretch_ends_back_at_91 (n : Nat) (d : Int) :
    finalPose (DogStretch ((n + 1 : Nat) : Int) d) = (some 90, some 90, some 91, some 91) ∧
      finalPose (DogStretch 1 15) = (some 90, some 90, some 91, some 91) ∧
      finalPose (DogStretch 1 15) ≠ (some 90, some 90, some 90, some 90) := by
  have h1 : finalPose (DogStretch 1 15) = (some 90, some 90, some 91, some 91) :=
    finalPose_DogStretch_succ 0 15
  refine ⟨finalPose_DogStretch_succ n d, h1, ?_⟩
  rw [h1]
  decide

/-- C13: with count 0 each counted gait primitive runs no iteration of its loop, so its
command sequence is the one around the loop, and the last nominal angle written to each
leg is 90, or the sit pose (90, 90, 30, 30) for `DogSwing`. -/
theorem zero_count_terminal_pose (d : Int) :
    (DogWalk 0 d = StandUp ++ [Cmd.delay 120] ∧
        finalPose (DogWalk 0 d) = (some 90, some 90, some 90, some 90)) ∧
      (DogWalkBack 0 d = StandUp ++ [Cmd.delay 120] ∧
        finalPose (DogWalkBack 0 d) = (some 90, some 90, some 90, some 90)) ∧
      (DogTurnLeft 0 d = StandUp ++ [Cmd.delay 500] ∧
        finalPose (DogTurnLeft 0 d) = (some 90, some 90, some 90, some 90)) ∧
      (DogTurnRight 0 d = StandUp ++ [Cmd.delay 500] ∧
        finalPose (DogTurnRight 0 d) = (some 90, some 90, some 90, some 90)) ∧
      (DogDance 0 d = StandUp ∧
        finalPose (DogDance 0 d) = (some 90, some 90, some 90, some 90)) ∧
      (DogWaveRightFoot 0 d = ExecuteDogMovement 90 90 90 90 300 ++ StandUp ∧
        finalPose (DogWaveRightFoot 0 d) = (some 90, some 90, some 90, some 90)) ∧
      (DogDance4Feet 0 d = StandUp ++ [Cmd.delay 200] ++ StandUp ++ [Cmd.delay 500] ∧
        finalPose (DogDance4Feet 0 d) = (some 90, some 90, some 90, some 90)) ∧
      (DogSwing 0 d =
          StandUp ++ [Cmd.delay 500] ++
            forGt 90 30 (fun i => ExecuteDogMovement i i i i 0 ++ [Cmd.delay d]) ++
            DogSitDown 0 ∧
        finalPose (DogSwing 0 d) = (some 90, some 90, some 30, some 30)) ∧
      (DogStretch 0 d = ExecuteDogMovement 90 90 90 90 80 ∧
        finalPose (DogStretch 0 d) = (some 90, some 90, some 90, some 90)) := by
  have h0 : ∀ body : List Cmd, repeatLoop 0 body = [] := fun _ => rfl
  refine ⟨⟨?_, ?_⟩, ⟨?_, ?_⟩, ⟨?_, ?_⟩, ⟨?_, ?_⟩, ⟨?_, ?_⟩, ⟨?_, ?_⟩, ⟨?_, ?_⟩, ⟨?_, ?_⟩,
    ⟨?_, ?_⟩⟩
  · simp only [DogWalk, h0, List.append_nil]
  · simp only [DogWalk, h0, List.append_nil]
    decide
  · simp only [DogWalkBack, h0, List.append_nil]
  · simp only [DogWalkBack, h0, List.append_nil]
    decide
  · simp only [DogTurnLeft, h0, List.append_nil]
  · simp only [DogTurnLeft, h0, List.append_nil]
    decide
  · simp only [DogTurnRight, h0, List.append_nil]
  · simp only [DogTurnRight, h0, List.append_nil]
    decide
  · simp only [DogDance, h0, List.nil_append]
  · simp only [DogDance, h0, List.nil_append]
    decide
  · simp only [DogWaveRightFoot, h0, List.append_nil]
  · simp only [DogWaveRightFoot, h0, List.append_nil]
    decide
  · simp only [DogDance4Feet, h0, List.append_nil]
  · simp only [DogDance4Feet, h0, List.append_nil]
    decide
  · simp only [DogSwing, h0, List.append_nil]
  · simp only [DogSwing, h0, List.append_nil]
    exact finalPose_append_of_all _ _ _ _ _ _ (by decide)
  · simp only [DogStretch, h0, List.append_nil]
  · simp only [DogStretch, h0, List.append_nil]
    decide

theorem map_swapLR_ServoAngleSet (i a d : Int) :
    (ServoAngleSet i a d).map swapLR = ServoAngleSet (swapChannel i) a d := by
  unfold ServoAngleSet
  split_ifs <;> rfl

/-- C19 (amended): for every step count and delay, `DogTurnLeft` and `DogTurnRight` issue the
same stand-up preamble (`StandUp`, then 500 ms), and the step loop of `DogTurnRight` is the
step loop of `DogTurnLeft` with the left and right channels exchanged, angles and delays
kept; in the loop the front legs get only 45 and 90 and the back legs only 135 and 90. -/
theorem DogTurnRight_swaps_DogTurnLeft_loop (steps d : Int) :
    DogTurnLeft steps d = StandUp ++ [Cmd.delay 500] ++ repeatLoop steps (DogTurnLeft.body d) ∧
      DogTurnRight steps d =
        StandUp ++ [Cmd.delay 500] ++ (repeatLoop steps (DogTurnLeft.body d)).map swapLR ∧
      DogTurnRight.body d = (DogTurnLeft.body d).map swapLR ∧
      writesOf (DogTurnLeft.body d) =
        [(SERVO_RF, 45), (SERVO_LB, 135), (SERVO_LF, 45), (SERVO_RB, 135),
          (SERVO_RF, 90), (SERVO_LB, 90), (SERVO_LF, 90), (SERVO_RB, 90)] ∧
      writesOf (DogTurnRight.body d) =
        [(SERVO_LF, 45), (SERVO_RB, 135), (SERVO_RF, 45), (SERVO_LB, 135),
          (SERVO_LF, 90), (SERVO_RB, 90), (SERVO_RF, 90), (SERVO_LB, 90)] := by
  have hbody : (DogTurnLeft.body d).map swapLR = DogTurnRight.body d := by
    simp only [DogTurnLeft.body, DogTurnRight.body, List.map_append, map_swapLR_ServoAngleSet]
    rfl
  refine ⟨rfl, ?_, hbody.symm, ?_, ?_⟩
  · rw [map_repeatLoop, hbody]
    rfl
  · simp only [DogTurnLeft.body, writesOf_append, writesOf_ServoAngleSet]
    rfl
  · simp only [DogTurnRight.body, writesOf_append, writesOf_ServoAngleSet]
    rfl

/-- Counterexample to C19 as stated: the whole command sequence of `DogTurnRight(3, 150)` is
not that of `DogTurnLeft(3, 150)` with the channels exchanged, since the shared stand-up
preamble writes LF, RF, LB, RB in this order in both. -/
theorem DogTurnRight_not_swapped_DogTurnLeft :
    DogTurnRight 3 150 ≠ (DogTurnLeft 3 150).map swapLR := by
  decide

/-- C20: for every wave count `n >= 0` and every `speed_delay`, `DogWaveRightFoot` is its
preparation pose, exactly `n` waves and `StandUp`; each wave writes only the right front
channel, the 38 angles 90, 85, ..., 0, 0, 5, ..., 90, each write followed by 8 ms, and
`speed_delay` occurs only as the pause after each of the two sweeps. -/
theorem DogWaveRightFoot_waves (n : Nat) (speed_delay : Int) :
    DogWaveRightFoot.body speed_delay = waveCycle speed_delay ∧
      DogWaveRightFoot n speed_delay =
        ExecuteDogMovement 90 90 90 90 300 ++
          (List.replicate n (waveCycle speed_delay)).flatten ++ StandUp ∧
      (writesOf (waveCycle speed_delay)).map Prod.fst = List.replicate 38 SERVO_RF ∧
      (writesOf (waveCycle speed_delay)).map Prod.snd =
        [90, 85, 80, 75, 70, 65, 60, 55, 50, 45, 40, 35, 30, 25, 20, 15, 10, 5, 0,
          0, 5, 10, 15, 20, 25, 30, 35, 40, 45, 50, 55, 60, 65, 70, 75, 80, 85, 90] := by
  have hbody : DogWaveRightFoot.body speed_delay = waveCycle speed_delay := rfl
  refine ⟨hbody, ?_, rfl, rfl⟩
  simp only [DogWaveRightFoot, repeatLoop, Int.toNat_ofNat, hbody]


/-! ## Home and trims -/

theorem ServoWrite_config (o : Otto) (j a : Int) :
    (ServoWrite o j a).servo_pins_ = o.servo_pins_ ∧
      (ServoWrite o j a).servo_trim_ = o.servo_trim_ ∧
      (ServoWrite o j a).servo_compensate_ = o.servo_compensate_ := by
  unfold ServoWrite
  split_ifs <;> exact ⟨rfl, rfl, rfl⟩

theorem step_config (o : Otto) (c : Cmd) :
    (o.step c).servo_pins_ = o.servo_pins_ ∧
      (o.step c).servo_trim_ = o.servo_trim_ ∧
      (o.step c).servo_compensate_ = o.servo_compensate_ := by
  cases c with
  | write j a => exact ServoWrite_config o j a
  | delay ms => exact ⟨rfl, rfl, rfl⟩
  | rest b => exact ⟨rfl, rfl, rfl⟩

theorem run_config (cmds : List Cmd) (o : Otto) :
    (o.run cmds).servo_pins_ = o.servo_pins_ ∧
      (o.run cmds).servo_trim_ = o.servo_trim_ ∧
      (o.run cmds).servo_compensate_ = o.servo_compensate_ := by
  induction cmds generalizing o with
  | nil => exact ⟨rfl, rfl, rfl⟩
  | cons c cs ih =>
    obtain ⟨h1, h2, h3⟩ := ih (o.step c)
    obtain ⟨g1, g2, g3⟩ := step_config o c
    exact ⟨h1.trans g1, h2.trans g2, h3.trans g3⟩

theorem step_servo_cases (o1 o2 : Otto) (c : Cmd) (i : Int)
    (hp : o1.servo_pins_ = o2.servo_pins_) (ht : o1.servo_trim_ = o2.servo_trim_)
    (hc : o1.servo_compensate_ = o2.servo_compensate_) :
    ((o1.step c).servo_ i = o1.servo_ i ∧ (o2.step c).servo_ i = o2.servo_ i) ∨
      (o1.step c).servo_ i = (o2.step c).servo_ i := by
  cases c with
  | delay ms => exact Or.inl ⟨rfl, rfl⟩
  | rest b => exact Or.inl ⟨rfl, rfl⟩
  | write j a =>
    simp only [Otto.step, ServoWrite, Otto.SetPosition, hp, ht, hc]
    by_cases hg : j < 0 ∨ j ≥ SERVO_COUNT ∨ o2.servo_pins_ j = -1
    · simp only [if_pos hg]
      exact Or.inl ⟨trivial, trivial⟩
    · simp only [if_neg hg]
      by_cases hij : i = j
      · subst hij
        right
        simp only [Function.update_same]
      · left
        simp only [Function.update_noteq hij]
        exact ⟨trivial, trivial⟩

theorem run_servo_cases (cmds : List Cmd) (o1 o2 : Otto) (i : Int)
    (hp : o1.servo_pins_ = o2.servo_pins_) (ht : o1.servo_trim_ = o2.servo_trim_)
    (hc : o1.servo_compensate_ = o2.servo_compensate_) :
    ((o1.run cmds).servo_ i = o1.servo_ i ∧ (o2.run cmds).servo_ i = o2.servo_ i) ∨
      (o1.run cmds).servo_ i = (o2.run cmds).servo_ i := by
  induction cmds generalizing o1 o2 with
  | nil => exact Or.inl ⟨rfl, rfl⟩
  | cons c cs ih =>
    obtain ⟨a1, a2, a3⟩ := step_config o1 c
    obtain ⟨b1, b2, b3⟩ := step_config o2 c
    have hrun : ∀ o : Otto, o.run (c :: cs) = (o.step c).run cs := fun _ => rfl
    rw [hrun o1, hrun o2]
    rcases ih (o1.step c) (o2.step c) (a1.trans (hp.trans b1.symm))
        (a2.trans (ht.trans b2.symm)) (a3.trans (hc.trans b3.symm)) with ⟨h1, h2⟩ | h
    · rcases step_servo_cases o1 o2 c i hp ht hc with ⟨g1, g2⟩ | g
      · exact Or.inl ⟨h1.trans g1, h2.trans g2⟩
      · exact Or.inr (h1.trans (g.trans h2.symm))
    · exact Or.inr h

theorem run_twice_servo (cmds : List Cmd) (o : Otto) (i : Int) :
    ((o.run cmds).run cmds).servo_ i = (o.run cmds).servo_ i := by
  obtain ⟨h1, h2, h3⟩ := run_config cmds o
  rcases run_servo_cases cmds o (o.run cmds) i h1.symm h2.symm h3.symm with ⟨_, g2⟩ | g
  · exact g2
  · exact g.symm

/-- C14: `Home` is idempotent on the robot state: for every servo state, the position
commanded on each channel after two calls of `Home` in a row is the one after a single
call, and the rest flag is true after one call and after two. -/
theorem Home_idempotent (o : Otto) :
    o.run (Home ++ Home) = (o.run Home).run Home ∧
      (∀ servo_id : Int,
        ((o.run Home).run Home).servo_ servo_id = (o.run Home).servo_ servo_id) ∧
      (o.run Home).is_otto_resting_ = true ∧
      ((o.run Home).run Home).is_otto_resting_ = true :=
  ⟨Otto_run_append o Home Home, fun servo_id => run_twice_servo Home o servo_id, rfl, rfl⟩

theorem SetTrims_idem (o : Otto) (a b c d : Int) :
    SetTrims (SetTrims o a b c d) a b c d = SetTrims o a b c d := by
  unfold SetTrims
  congr 1
  funext i
  simp only [Function.update, eq_rec_constant, dite_eq_ite]
  split_ifs <;> rfl

/-- C15: `LoadTrimsFromNVS` followed by `ServoWrite(id, A)` gives the state that `SetTrims`
with the four stored values followed by `ServoWrite(id, A)` gives; the stored value of each
key is the trim of its own leg, a missing key gives trim 0, and `SetTrims` applied twice
with the same values is `SetTrims` applied once. -/
theorem LoadTrims_roundtrip (settings : Settings) (c : OttoController) (servo_id A : Int) :
    ServoWrite (LoadTrimsFromNVS settings c).otto_ servo_id A =
        ServoWrite (SetTrims c.otto_ (settings.GetInt TrimKey.left_front 0)
          (settings.GetInt TrimKey.right_front 0) (settings.GetInt TrimKey.left_back 0)
          (settings.GetInt TrimKey.right_back 0)) servo_id A ∧
      ((LoadTrimsFromNVS settings c).otto_.servo_trim_ SERVO_LF =
          (settings TrimKey.left_front).getD 0 ∧
        (LoadTrimsFromNVS settings c).otto_.servo_trim_ SERVO_RF =
          (settings TrimKey.right_front).getD 0 ∧
        (LoadTrimsFromNVS settings c).otto_.servo_trim_ SERVO_LB =
          (settings TrimKey.left_back).getD 0 ∧
        (LoadTrimsFromNVS settings c).otto_.servo_trim_ SERVO_RB =
          (settings TrimKey.right_back).getD 0) ∧
      ∀ (o : Otto) (lf rf lb rb : Int),
        ServoWrite (SetTrims (SetTrims o lf rf lb rb) lf rf lb rb) servo_id A =
          ServoWrite (SetTrims o lf rf lb rb) servo_id A := by
  have hget : ∀ key : TrimKey, settings.GetInt key 0 = (settings key).getD 0 := by
    intro key
    unfold Settings.GetInt
    cases settings key <;> rfl
  refine ⟨rfl, ⟨?_, ?_, ?_, ?_⟩, ?_⟩
  · rw [← hget]; rfl
  · rw [← hget]; rfl
  · rw [← hget]; rfl
  · rw [← hget]; rfl
  · intro o lf rf lb rb
    rw [SetTrims_idem]


/-! ## Unknown actions, the null queue and writers outside the executor -/

theorem dispatch_unknown (env : Env) (params : OttoActionParams)
    (h : params.action_type < 1 ∨ 21 < params.action_type) :
    ActionTask.dispatch env params = [] := by
  unfold ActionTask.dispatch
  simp only [ACTION_DOG_WALK, ACTION_DOG_WALK_BACK, ACTION_DOG_TURN_LEFT,
    ACTION_DOG_TURN_RIGHT, ACTION_DOG_SIT_DOWN, ACTION_DOG_LIE_DOWN, ACTION_DOG_JUMP,
    ACTION_DOG_JUMP_HAPPY, ACTION_DOG_BOW, ACTION_DOG_DANCE, ACTION_DOG_WAVE_RIGHT_FOOT,
    ACTION_DOG_DANCE_4_FEET, ACTION_DOG_SWING, ACTION_DOG_STRETCH, ACTION_DOG_SCRATCH,
    ACTION_WALK, ACTION_TURN, ACTION_JUMP, ACTION_BEND, ACTION_HOME, ACTION_DELAY]
  have hne : ∀ k : Int, 1 ≤ k → k ≤ 21 → ¬ params.action_type = k := by
    intro k h1 h2 he
    omega
  rw [if_neg (hne 1 (by decide) (by decide)), if_neg (hne 2 (by decide) (by decide)),
    if_neg (hne 3 (by decide) (by decide)), if_neg (hne 4 (by decide) (by decide)),
    if_neg (hne 5 (by decide) (by decide)), if_neg (hne 6 (by decide) (by decide)),
    if_neg (hne 7 (by decide) (by decide)), if_neg (hne 21 (by decide) (by decide)),
    if_neg (hne 8 (by decide) (by decide)), if_neg (hne 9 (by decide) (by decide)),
    if_neg (hne 10 (by decide) (by decide)), if_neg (hne 11 (by decide) (by decide)),
    if_neg (hne 12 (by decide) (by decide)), if_neg (hne 13 (by decide) (by decide)),
    if_neg (hne 14 (by decide) (by decide)), if_neg (hne 15 (by decide) (by decide)),
    if_neg (hne 16 (by decide) (by decide)), if_neg (hne 17 (by decide) (by decide)),
    if_neg (hne 18 (by decide) (by decide)), if_neg (hne 19 (by decide) (by decide)),
    if_neg (hne 20 (by decide) (by decide))]

/-- C16: a dequeued request whose action type is outside 1..21 issues no call at all (no
servo command, no emotion): its iteration consists of the log line and the 20 ms settle
delay, and the next iteration dispatches the next pending request in full. -/
theorem unknown_action_ignored (env : Env) (params : OttoActionParams)
    (h : params.action_type < 1 ∨ 21 < params.action_type) :
    ActionTask.dispatch env params = [] ∧
      ∀ (c : OttoController) (next : OttoActionParams) (pending : List OttoActionParams)
        (r1 r2 : Nat),
        (ActionTask.iter env { c with action_queue_ := some (params :: next :: pending) }
            r1).trace =
          c.trace ++ [Event.executing params.action_type params.steps params.speed,
            Event.cmd (Cmd.delay 20)] ∧
        (ActionTask.run env { c with action_queue_ := some (params :: next :: pending) }
            [r1, r2]).trace =
          c.trace ++ [Event.executing params.action_type params.steps params.speed,
            Event.cmd (Cmd.delay 20)] ++ requestTrace env next ∧
        (ActionTask.run env { c with action_queue_ := some (params :: next :: pending) }
            [r1, r2]).action_queue_ = some pending := by
  have hd := dispatch_unknown env params h
  refine ⟨hd, fun c next pending r1 r2 => ?_⟩
  have hreq : requestTrace env params =
      [Event.executing params.action_type params.steps params.speed,
        Event.cmd (Cmd.delay 20)] := by
    simp only [requestTrace, hd, List.append_nil]
    rfl
  have h1 : ActionTask.iter env { c with action_queue_ := some (params :: next :: pending) }
      r1 = ActionTask.received env { c with action_queue_ := some (next :: pending) }
        params := rfl
  have h2 : ActionTask.iter env
      (ActionTask.received env { c with action_queue_ := some (next :: pending) } params) r2 =
      ActionTask.received env
        { ActionTask.received env { c with action_queue_ := some (next :: pending) } params
          with action_queue_ := some pending } next := rfl
  refine ⟨?_, ?_, ?_⟩
  · rw [h1, received_trace, hreq]
  · simp only [ActionTask.run]
    rw [h1, h2, received_trace]
    show (ActionTask.received env { c with action_queue_ := some (next :: pending) }
      params).trace ++ requestTrace env next = _
    rw [received_trace, hreq]
  · simp only [ActionTask.run]
    rw [h1, h2]
    rfl

/-- Witness of C16: action type 99 issues nothing and the walk request behind it runs. -/
theorem unknown_action_ignored_witness :
    ActionTask.dispatch envDisplay paramsUnknown = [] ∧
      (ActionTask.run envDisplay
        { ctrl0 with action_queue_ := some [paramsUnknown, paramsWalk] }
        [0, 0]).action_queue_ = some [] :=
  ⟨(unknown_action_ignored envDisplay paramsUnknown (by decide)).1,
    ((unknown_action_ignored envDisplay paramsUnknown (by decide)).2 ctrl0
      paramsWalk [] 0 0).2.2⟩

/-- C17 (the code as it is): with a null `action_queue_`, `otto_controller_queue_action`
returns `ESP_OK` and leaves the controller as it was: nothing is enqueued and no task is
started, but no error reaches the caller. -/
theorem queue_action_null_queue_returns_ok (task_create_pass : Bool) (c : OttoController)
    (action_type steps speed direction amount : Int) :
    otto_controller_queue_action task_create_pass (some { c with action_queue_ := none })
        action_type steps speed direction amount =
      some (esp_err_t.ESP_OK, some { c with action_queue_ := none }) ∧
    otto_controller_queue_action task_create_pass (some ctrlNoQueue)
        ACTION_DOG_WALK 2 150 0 0 =
      some (esp_err_t.ESP_OK, some ctrlNoQueue) ∧
    otto_controller_queue_action task_create_pass none action_type steps speed direction
        amount =
      some (esp_err_t.ESP_ERR_INVALID_STATE, none) :=
  ⟨rfl, rfl, rfl⟩

/-- C18 (amended): `QueueAction` and `ExecuteAction` write none of the four executor
fields, and they return unless the queue is full; `StopAll` and the handler of
`self.dog.stop` leave `idle_no_action_ticks_`, `idle_mode_` and `idle_emoji_tick_` as they
were and set `is_action_in_progress_` to false. -/
theorem outside_writers_frame (task_create_pass : Bool) (c : OttoController)
    (action_type steps speed direction amount : Int) :
    (∀ c1 : OttoController,
        QueueAction task_create_pass c action_type steps speed direction amount = some c1 →
        c1.is_action_in_progress_ = c.is_action_in_progress_ ∧
        c1.idle_no_action_ticks_ = c.idle_no_action_ticks_ ∧
        c1.idle_mode_ = c.idle_mode_ ∧
        c1.idle_emoji_tick_ = c.idle_emoji_tick_) ∧
      ExecuteAction task_create_pass c action_type steps speed direction amount =
        QueueAction task_create_pass c action_type steps speed direction amount ∧
      ((QueueAction task_create_pass c action_type steps speed direction amount).isSome =
        true ↔ ∀ pending, c.action_queue_ = some pending → pending.length < queueCapacity) ∧
      ((StopAll c).is_action_in_progress_ = false ∧
        (StopAll c).idle_no_action_ticks_ = c.idle_no_action_ticks_ ∧
        (StopAll c).idle_mode_ = c.idle_mode_ ∧
        (StopAll c).idle_emoji_tick_ = c.idle_emoji_tick_) ∧
      (∀ c1 : OttoController, tool_dog_stop c = some c1 →
        c1.is_action_in_progress_ = false ∧
        c1.idle_no_action_ticks_ = c.idle_no_action_ticks_ ∧
        c1.idle_mode_ = c.idle_mode_ ∧
        c1.idle_emoji_tick_ = c.idle_emoji_tick_) ∧
      ((tool_dog_stop c).isSome = true ↔ c.action_queue_.isSome = true) := by
  refine ⟨?_, rfl, ?_, ?_, ?_, ?_⟩
  · intro c1 h
    unfold QueueAction at h
    cases hq : c.action_queue_ with
    | none =>
      rw [hq] at h
      simp only [Option.some.injEq] at h
      subst h
      exact ⟨rfl, rfl, rfl, rfl⟩
    | some pending =>
      rw [hq] at h
      simp only at h
      split_ifs at h with hlen
      simp only [Option.some.injEq] at h
      subst h
      unfold StartActionTaskIfNeeded
      split_ifs <;> exact ⟨rfl, rfl, rfl, rfl⟩
  · unfold QueueAction
    cases hq : c.action_queue_ with
    | none => simp
    | some pending =>
      simp only [Option.some.injEq, forall_eq']
      split_ifs with hlen <;> simp [hlen]
  · unfold StopAll
    cases c.action_queue_ <;> exact ⟨rfl, rfl, rfl, rfl⟩
  · intro c1 h
    unfold tool_dog_stop at h
    cases hq : c.action_queue_ with
    | none =>
      simp only at h
      split_ifs at h <;> simp [hq] at h
    | some pending =>
      simp only at h
      split_ifs at h <;> simp [hq] at h <;> subst h <;> exact ⟨rfl, rfl, rfl, rfl⟩
  · unfold tool_dog_stop
    cases hq : c.action_queue_ with
    | none =>
      simp only
      split_ifs <;> simp [hq]
    | some pending =>
      simp only
      split_ifs <;> simp [hq]

/-- Witness of C18: a walk request queued on a busy controller leaves the flag set. -/
theorem outside_writers_frame_witness :
    QueueAction true ctrlBusy ACTION_DOG_WALK 2 150 0 0 =
        some (StartActionTaskIfNeeded true
          { ctrlBusy with action_queue_ := some [paramsWalk] }) ∧
      (StartActionTaskIfNeeded true
          { ctrlBusy with action_queue_ := some [paramsWalk] }).is_action_in_progress_ =
        true :=
  ⟨rfl, ((outside_writers_frame true ctrlBusy ACTION_DOG_WALK 2 150 0 0).1 _ rfl).1⟩

/-- Counterexample to C18 as stated: `StopAll` on a controller with an action in progress
clears `is_action_in_progress_`, and so does the handler of `self.dog.stop`. -/
theorem StopAll_writes_in_progress :
    (StopAll ctrlBusy).is_action_in_progress_ ≠ ctrlBusy.is_action_in_progress_ ∧
      (tool_dog_stop ctrlBusy).map (fun c => c.is_action_in_progress_) ≠
        some ctrlBusy.is_action_in_progress_ := by
  decide


/-! ## Swing, dance and the legacy jump -/

set_option maxRecDepth 100000 in
/-- C21: for every cycle count `n >= 0` and delay, the swing loop of `DogSwing` runs `n`
cycles, and the writes of a cycle are the poses `(i, 110 - i, i, 110 - i)` for the 120
values `i` = 30, ..., 89, 90, ..., 31, all with `30 <= i <= 90`; every nominal angle of the
loop lies in `[20, 90]`. -/
theorem DogSwing_loop_poses (n : Nat) (speed_delay : Int) :
    DogSwing n speed_delay =
        StandUp ++ [Cmd.delay 500] ++
          forGt 90 30 (fun i => ExecuteDogMovement i i i i 0 ++ [Cmd.delay speed_delay]) ++
          (List.replicate n (DogSwing.body speed_delay)).flatten ++ DogSitDown 0 ∧
      writesOf (DogSwing.body speed_delay) = swingAngles.flatMap swingPose ∧
      swingAngles.length = 120 ∧
      swingAngles.all (fun i => decide (30 ≤ i ∧ i ≤ 90)) = true ∧
      (writesOf (DogSwing.body speed_delay)).all (fun p => decide (20 ≤ p.2 ∧ p.2 ≤ 90)) =
        true := by
  have hw : writesOf (DogSwing.body speed_delay) = swingAngles.flatMap swingPose := by
    have h0 : writesOf (DogSwing.body speed_delay) = writesOf (DogSwing.body 0) := by
      simp only [DogSwing.body, forLt, forGt, writesOf_append, writesOf_flatMap,
        writesOf_ExecuteDogMovement]
      rfl
    rw [h0]
    rfl
  refine ⟨?_, hw, by decide, by decide, ?_⟩
  · simp only [DogSwing, repeatLoop, Int.toNat_ofNat]
  · rw [hw]
    rfl

/-- C22 (the code as it is): `DogDance` does not use `speed_delay`: for every cycle count
two calls with different `speed_delay` issue the same commands, so the same delays; a
cycle always pauses 200, 200, 150, 100, 150 ms. -/
theorem DogDance_ignores_speed_delay (cycles d1 d2 : Int) :
    DogDance cycles d1 = DogDance cycles d2 ∧
      delaysOf (DogDance cycles d1) = delaysOf (DogDance cycles d2) ∧
      delaysOf DogDance.body = [200, 200, 150, 100, 150] ∧
      delaysOf (DogDance 3 100) = delaysOf (DogDance 3 500) :=
  ⟨rfl, rfl, by decide, rfl⟩

/-- C25 (the code as it is): `Jump` does not use `steps`: the request of `self.otto.jump`
for 3 jumps is dispatched to one call of `DogJump(period / 2)`, whose writes are one crouch
(60 on all legs), one extension (120 on all legs) and the stand pose. -/
theorem Jump_ignores_steps (env : Env) (steps period : Int) :
    Jump steps period = DogJump (Int.tdiv period 2) ∧
      writesOf (Jump steps period) =
        [(SERVO_LF, 60), (SERVO_RF, 60), (SERVO_LB, 60), (SERVO_RB, 60),
          (SERVO_LF, 120), (SERVO_RF, 120), (SERVO_LB, 120), (SERVO_RB, 120),
          (SERVO_LF, 90), (SERVO_RF, 90), (SERVO_LB, 90), (SERVO_RB, 90)] ∧
      ActionTask.dispatch env paramsJump3 =
        SetEmotion env Emotion.angry ++ call (Jump 3 2000) ++
          SetEmotion env Emotion.neutral ∧
      Cu.ActionTask.dispatch { paramsJump3 with action_type := Cu.ACTION_JUMP } =
        Jump 3 2000 ∧
      countPose 60 (writesOf (Jump 3 2000)) = 1 ∧
      countPose 120 (writesOf (Jump 3 2000)) = 1 := by
  refine ⟨rfl, ?_, rfl, rfl, by decide, by decide⟩
  have h0 : writesOf (Jump steps period) = writesOf (DogJump 0) := by
    simp only [Jump, DogJump, writesOf_append, writesOf_ExecuteDogMovement]
  rw [h0]
  decide

/-! ## Composite sequence tools -/

theorem emotionsOf_bracket (env : Env) (e : Emotion) (cmds : List Event)
    (h : emotionsOf cmds = []) :
    emotionsOf (SetEmotion env e ++ cmds ++ SetEmotion env Emotion.neutral) =
      if env.display then [e, Emotion.neutral] else [] := by
  simp only [emotionsOf_append, emotionsOf_SetEmotion, h, List.append_nil]
  split_ifs <;> rfl

/-- The handlers of the composite sequence tools on their own: each issues its emotion,
then only calls of gait primitives and delays, then `neutral`. -/
theorem composite_tools_handler_trace (env : Env) (c : OttoController) :
    ((tool_dog_defend env c).trace =
          c.trace ++ (SetEmotion env Emotion.shocked ++
            call (DogWalkBack 1 100 ++ DogSitDown 3000 ++ DogLieDown 1500 ++
              [Cmd.delay 3000] ++ Home) ++ SetEmotion env Emotion.neutral) ∧
        emotionsOf (tool_dog_defend env c).trace =
          emotionsOf c.trace ++ if env.display then [Emotion.shocked, Emotion.neutral] else []) ∧
      ((tool_dog_attack env c).trace =
          c.trace ++ (SetEmotion env Emotion.angry ++
            call (DogWalk 2 100 ++ DogJump 200 ++ DogBow 1000) ++
            SetEmotion env Emotion.neutral) ∧
        emotionsOf (tool_dog_attack env c).trace =
          emotionsOf c.trace ++ if env.display then [Emotion.angry, Emotion.neutral] else []) ∧
      ((tool_dog_celebrate env c).trace =
          c.trace ++ (SetEmotion env Emotion.happy ++
            call (DogDance 2 200 ++ DogWaveRightFoot 3 50 ++ DogSwing 4 10) ++
            SetEmotion env Emotion.neutral) ∧
        emotionsOf (tool_dog_celebrate env c).trace =
          emotionsOf c.trace ++ if env.display then [Emotion.happy, Emotion.neutral] else []) ∧
      ((tool_dog_greet env c).trace =
          c.trace ++ (SetEmotion env Emotion.happy ++
            call (Home ++ DogWaveRightFoot 5 50 ++ DogBow 2000) ++
            SetEmotion env Emotion.neutral) ∧
        emotionsOf (tool_dog_greet env c).trace =
          emotionsOf c.trace ++ if env.display then [Emotion.happy, Emotion.neutral] else []) ∧
      ((tool_dog_retreat env c).trace =
          c.trace ++ (SetEmotion env Emotion.scared ++
            call (DogWalkBack 3 100 ++ DogTurnRight 4 150 ++ DogWalk 2 100) ++
            SetEmotion env Emotion.neutral) ∧
        emotionsOf (tool_dog_retreat env c).trace =
          emotionsOf c.trace ++ if env.display then [Emotion.scared, Emotion.neutral] else []) ∧
      ((tool_dog_search env c).trace =
          c.trace ++ (SetEmotion env Emotion.surprised ++
            call (DogTurnLeft 2 150 ++ DogTurnRight 4 150 ++ DogTurnLeft 2 150 ++
              DogWalk 2 150) ++ SetEmotion env Emotion.neutral) ∧
        emotionsOf (tool_dog_search env c).trace =
          emotionsOf c.trace ++
            if env.display then [Emotion.surprised, Emotion.neutral] else []) := by
  have hcall : ∀ xs ys : List Cmd, call (xs ++ ys) = call xs ++ call ys := by
    intro xs ys
    simp [call]
  have hd : ∀ ms : Int, [Event.cmd (Cmd.delay ms)] = call [Cmd.delay ms] := fun _ => rfl
  have key : ∀ (t : OttoController) (e : Emotion) (cmds : List Cmd),
      t.trace = c.trace ++ (SetEmotion env e ++ call cmds ++ SetEmotion env Emotion.neutral) →
      emotionsOf t.trace =
        emotionsOf c.trace ++ if env.display then [e, Emotion.neutral] else [] := by
    intro t e cmds h
    rw [h, emotionsOf_append, emotionsOf_bracket env e _ (emotionsOf_call cmds)]
  have h1 : (tool_dog_defend env c).trace =
      c.trace ++ (SetEmotion env Emotion.shocked ++
        call (DogWalkBack 1 100 ++ DogSitDown 3000 ++ DogLieDown 1500 ++
          [Cmd.delay 3000] ++ Home) ++ SetEmotion env Emotion.neutral) := by
    simp only [tool_dog_defend, emit_trace, hcall, hd, List.append_assoc]
  have h2 : (tool_dog_attack env c).trace =
      c.trace ++ (SetEmotion env Emotion.angry ++
        call (DogWalk 2 100 ++ DogJump 200 ++ DogBow 1000) ++
        SetEmotion env Emotion.neutral) := by
    simp only [tool_dog_attack, emit_trace, hcall, List.append_assoc]
  have h3 : (tool_dog_celebrate env c).trace =
      c.trace ++ (SetEmotion env Emotion.happy ++
        call (DogDance 2 200 ++ DogWaveRightFoot 3 50 ++ DogSwing 4 10) ++
        SetEmotion env Emotion.neutral) := by
    simp only [tool_dog_celebrate, emit_trace, hcall, List.append_assoc]
  have h4 : (tool_dog_greet env c).trace =
      c.trace ++ (SetEmotion env Emotion.happy ++
        call (Home ++ DogWaveRightFoot 5 50 ++ DogBow 2000) ++
        SetEmotion env Emotion.neutral) := by
    simp only [tool_dog_greet, emit_trace, hcall, List.append_assoc]
  have h5 : (tool_dog_retreat env c).trace =
      c.trace ++ (SetEmotion env Emotion.scared ++
        call (DogWalkBack 3 100 ++ DogTurnRight 4 150 ++ DogWalk 2 100) ++
        SetEmotion env Emotion.neutral) := by
    simp only [tool_dog_retreat, emit_trace, hcall, List.append_assoc]
  have h6 : (tool_dog_search env c).trace =
      c.trace ++ (SetEmotion env Emotion.surprised ++
        call (DogTurnLeft 2 150 ++ DogTurnRight 4 150 ++ DogTurnLeft 2 150 ++
          DogWalk 2 150) ++ SetEmotion env Emotion.neutral) := by
    simp only [tool_dog_search, emit_trace, hcall, List.append_assoc]
  exact ⟨⟨h1, key _ _ _ h1⟩, ⟨h2, key _ _ _ h2⟩, ⟨h3, key _ _ _ h3⟩, ⟨h4, key _ _ _ h4⟩,
    ⟨h5, key _ _ _ h5⟩, ⟨h6, key _ _ _ h6⟩⟩


theorem idle_run_quiet (env : Env) (rs : List Nat) (c : OttoController)
    (hq : c.action_queue_ = some []) (hi : c.idle_mode_ = true)
    (hk : c.idle_emoji_tick_ + rs.length < 10) :
    (ActionTask.run env c rs).trace = c.trace ∧
      (ActionTask.run env c rs).action_queue_ = some [] ∧
      (ActionTask.run env c rs).idle_mode_ = true ∧
      (ActionTask.run env c rs).idle_emoji_tick_ = c.idle_emoji_tick_ + rs.length := by
  induction rs generalizing c with
  | nil => exact ⟨rfl, hq, hi, rfl⟩
  | cons r rs ih =>
    simp only [List.length_cons] at hk
    have hiter : ActionTask.iter env c r = ActionTask.timeout env c r := by
      simp [ActionTask.iter, hq]
    have hinc : incUInt32 c.idle_emoji_tick_ = c.idle_emoji_tick_ + 1 := by
      unfold incUInt32
      omega
    have hto := timeout_idle_keep env c r hi (by rw [hinc]; omega)
    obtain ⟨h1, h2, h3, h4⟩ := ih (ActionTask.iter env c r)
      (by rw [hiter, hto]; exact hq) (by rw [hiter, hto]; exact hi)
      (by rw [hiter, hto]; simp only [hinc]; omega)
    simp only [ActionTask.run, List.length_cons]
    refine ⟨h1.trans (by rw [hiter, hto]), h2, h3, h4.trans ?_⟩
    rw [hiter, hto]
    simp only [hinc]
    omega

theorem idle_iter_emit (env : Env) (r : Nat) (c : OttoController)
    (hq : c.action_queue_ = some []) (hi : c.idle_mode_ = true)
    (hk : c.idle_emoji_tick_ = 9) :
    (ActionTask.run env c [r]).trace = c.trace ++ SetEmotion env (kIdleEmojis r) ∧
      (ActionTask.run env c [r]).action_queue_ = some [] ∧
      (ActionTask.run env c [r]).idle_mode_ = true ∧
      (ActionTask.run env c [r]).idle_emoji_tick_ = 0 := by
  have hiter : ActionTask.iter env c r = ActionTask.timeout env c r := by
    simp [ActionTask.iter, hq]
  have hto := timeout_idle_emit env c r hi (by rw [hk]; decide)
  simp only [ActionTask.run, hiter, hto]
  exact ⟨rfl, hq, hi, rfl⟩

theorem withExecutor_cons (env : Env) (c : OttoController) (s : List Event)
    (statements : List (List Event)) (rs : List Nat) (schedule : List (List Nat)) :
    withExecutor env c (s :: statements) (rs :: schedule) =
      withExecutor env (ActionTask.run env (c.emit s) rs) statements schedule := rfl

theorem busy_run_quiet (env : Env) (rs : List Nat) (c : OttoController)
    (hq : c.action_queue_ = some []) (hi : c.idle_mode_ = false)
    (h0 : 0 ≤ c.idle_no_action_ticks_)
    (hk : c.idle_no_action_ticks_ + (rs.length : Int) < 120) :
    (ActionTask.run env c rs).trace = c.trace ∧
      (ActionTask.run env c rs).action_queue_ = some [] ∧
      (ActionTask.run env c rs).idle_mode_ = false ∧
      (ActionTask.run env c rs).idle_no_action_ticks_ =
        c.idle_no_action_ticks_ + (rs.length : Int) := by
  induction rs generalizing c with
  | nil => exact ⟨rfl, hq, hi, by simp [ActionTask.run]⟩
  | cons r rs ih =>
    simp only [List.length_cons, Nat.cast_add, Nat.cast_one] at hk
    have hiter : ActionTask.iter env c r = ActionTask.timeout env c r := by
      simp [ActionTask.iter, hq]
    have hinc : incInt32 c.idle_no_action_ticks_ = c.idle_no_action_ticks_ + 1 := by
      unfold incInt32
      omega
    have hto := timeout_quiet env c r hi (by rw [hinc]; omega)
    obtain ⟨h1, h2, h3, h4⟩ := ih (ActionTask.iter env c r)
      (by rw [hiter, hto]; exact hq) (by rw [hiter, hto]; exact hi)
      (by rw [hiter, hto]; simp only [hinc]; omega)
      (by rw [hiter, hto]; simp only [hinc]; omega)
    simp only [ActionTask.run, List.length_cons, Nat.cast_add, Nat.cast_one]
    refine ⟨h1.trans (by rw [hiter, hto]), h2, h3, h4.trans ?_⟩
    rw [hiter, hto]
    simp only [hinc]
    omega

theorem withExecutor_quiet (env : Env) (statements : List (List Event))
    (schedule : List (List Nat)) (c : OttoController)
    (hq : c.action_queue_ = some []) (hi : c.idle_mode_ = false)
    (h0 : 0 ≤ c.idle_no_action_ticks_)
    (hk : c.idle_no_action_ticks_ + ((schedule.map List.length).sum : Int) < 120) :
    (withExecutor env c statements schedule).trace = c.trace ++ statements.flatten := by
  induction statements generalizing c schedule with
  | nil =>
    cases schedule <;> simp [withExecutor]
  | cons s statements ih =>
    cases schedule with
    | nil =>
      simp only [withExecutor]
      rw [ih [] (c.emit s) hq hi h0 (by simpa using hk), emit_trace, List.flatten_cons,
        List.append_assoc]
    | cons rs schedule =>
      simp only [withExecutor]
      simp only [List.map_cons, List.sum_cons, Nat.cast_add] at hk
      have hlen : (0 : Int) ≤ ((schedule.map List.length).sum : Int) := Int.natCast_nonneg _
      obtain ⟨h1, h2, h3, h4⟩ := busy_run_quiet env rs (c.emit s)
        (by rw [emit_queue, hq]) (by rw [emit_idle_mode, hi])
        (by rw [emit_idle_ticks]; exact h0) (by rw [emit_idle_ticks]; omega)
      rw [emit_idle_ticks] at h4
      rw [ih schedule _ h2 h3 (by rw [h4]; omega) (by rw [h4]; omega), h1, emit_trace,
        List.flatten_cons, List.append_assoc]

/-- C24 (the code as it is): the handler of `self.dog.defend` issues its statements back to
back and sends two emotions itself, but it leaves the idle state of the executor alone.
Called on a controller in idle mode (emoji tick 5) with a display, with the executor timing
out once per second during the 10.82 s of the call, the display receives three emotions:
`shocked`, then an idle emotion of the executor after the lie down and before the wait, then
`neutral`; the controller is still in idle mode afterwards.  On a controller that is not in
idle mode the same executor iterations send nothing and the display receives the two
emotions of the handler. -/
theorem defend_idle_emotion_between_primitives (r : Nat) :
    (∀ (env : Env) (c : OttoController),
        withExecutor env c (tool_dog_defend.statements env) [] = tool_dog_defend env c) ∧
      (delaysOf (DogWalkBack 1 100)).sum = 1620 ∧ (delaysOf (DogSitDown 3000)).sum = 3000 ∧
      (delaysOf (DogLieDown 1500)).sum = 2500 ∧ (delaysOf Home).sum = 700 ∧
      (withExecutor envDisplay ctrlIdle (tool_dog_defend.statements envDisplay)
          (defendSchedule r)).trace =
        [Event.emotion Emotion.shocked] ++ call (DogWalkBack 1 100) ++
          call (DogSitDown 3000) ++ call (DogLieDown 1500) ++
          [Event.emotion (kIdleEmojis r)] ++ [Event.cmd (Cmd.delay 3000)] ++ call Home ++
          [Event.emotion Emotion.neutral] ∧
      emotionsOf (withExecutor envDisplay ctrlIdle (tool_dog_defend.statements envDisplay)
          (defendSchedule r)).trace =
        [Emotion.shocked, kIdleEmojis r, Emotion.neutral] ∧
      (withExecutor envDisplay ctrlIdle (tool_dog_defend.statements envDisplay)
          (defendSchedule r)).idle_mode_ = true ∧
      emotionsOf (withExecutor envDisplay ctrl0 (tool_dog_defend.statements envDisplay)
          (defendSchedule r)).trace =
        [Emotion.shocked, Emotion.neutral] := by
  have ht : (withExecutor envDisplay ctrlIdle (tool_dog_defend.statements envDisplay)
      (defendSchedule r)).trace =
      [Event.emotion Emotion.shocked] ++ call (DogWalkBack 1 100) ++
        call (DogSitDown 3000) ++ call (DogLieDown 1500) ++
        [Event.emotion (kIdleEmojis r)] ++ [Event.cmd (Cmd.delay 3000)] ++ call Home ++
        [Event.emotion Emotion.neutral] ∧
      (withExecutor envDisplay ctrlIdle (tool_dog_defend.statements envDisplay)
        (defendSchedule r)).idle_mode_ = true := by
    have e0 : ctrlIdle.action_queue_ = some [] ∧ ctrlIdle.idle_mode_ = true ∧
        ctrlIdle.idle_emoji_tick_ = 5 ∧ ctrlIdle.trace = [] := ⟨rfl, rfl, rfl, rfl⟩
    obtain ⟨q0, i0, k0, t0⟩ := e0
    generalize ctrlIdle = c0 at q0 i0 k0 t0 ⊢
    simp only [tool_dog_defend.statements, defendSchedule, withExecutor_cons]
    -- the shocked emotion
    obtain ⟨t1, q1, i1, k1⟩ := idle_run_quiet envDisplay []
      (c0.emit (SetEmotion envDisplay Emotion.shocked))
      (by rw [emit_queue, q0]) (by rw [emit_idle_mode, i0])
      (by rw [emit_emoji_tick, k0]; simp)
    simp only [emit_trace, t0] at t1
    simp [emit_emoji_tick, k0] at k1
    generalize ActionTask.run envDisplay (c0.emit (SetEmotion envDisplay Emotion.shocked))
      [] = c1 at t1 q1 i1 k1 ⊢
    -- the walk back, one timeout
    obtain ⟨t2, q2, i2, k2⟩ := idle_run_quiet envDisplay [r]
      (c1.emit (call (DogWalkBack 1 100)))
      (by rw [emit_queue, q1]) (by rw [emit_idle_mode, i1])
      (by rw [emit_emoji_tick, k1]; simp)
    simp only [emit_trace, t1] at t2
    simp [emit_emoji_tick, k1] at k2
    generalize ActionTask.run envDisplay (c1.emit (call (DogWalkBack 1 100))) [r] = c2
      at t2 q2 i2 k2 ⊢
    -- the sit down, three timeouts
    obtain ⟨t3, q3, i3, k3⟩ := idle_run_quiet envDisplay [r, r, r]
      (c2.emit (call (DogSitDown 3000)))
      (by rw [emit_queue, q2]) (by rw [emit_idle_mode, i2])
      (by rw [emit_emoji_tick, k2]; simp)
    simp only [emit_trace, t2] at t3
    simp [emit_emoji_tick, k2] at k3
    generalize ActionTask.run envDisplay (c2.emit (call (DogSitDown 3000))) [r, r, r] = c3
      at t3 q3 i3 k3 ⊢
    -- the lie down, three timeouts, the first of which changes the emotion
    have hsplit : ActionTask.run envDisplay (c3.emit (call (DogLieDown 1500))) [r, r, r] =
        ActionTask.run envDisplay
          (ActionTask.run envDisplay (c3.emit (call (DogLieDown 1500))) [r]) [r, r] :=
      ActionTask_run_append envDisplay _ [r] [r, r]
    rw [hsplit]
    obtain ⟨t4, q4, i4, k4⟩ := idle_iter_emit envDisplay r
      (c3.emit (call (DogLieDown 1500)))
      (by rw [emit_queue, q3]) (by rw [emit_idle_mode, i3])
      (by rw [emit_emoji_tick, k3])
    simp only [emit_trace, t3] at t4
    generalize ActionTask.run envDisplay (c3.emit (call (DogLieDown 1500))) [r] = c4
      at t4 q4 i4 k4 ⊢
    obtain ⟨t5, q5, i5, k5⟩ := idle_run_quiet envDisplay [r, r] c4 q4 i4
      (by rw [k4]; simp)
    simp only [t4] at t5
    simp [k4] at k5
    generalize ActionTask.run envDisplay c4 [r, r] = c5 at t5 q5 i5 k5 ⊢
    -- the wait, three timeouts
    obtain ⟨t6, q6, i6, k6⟩ := idle_run_quiet envDisplay [r, r, r]
      (c5.emit [Event.cmd (Cmd.delay 3000)])
      (by rw [emit_queue, q5]) (by rw [emit_idle_mode, i5])
      (by rw [emit_emoji_tick, k5]; simp)
    simp only [emit_trace, t5] at t6
    simp [emit_emoji_tick, k5] at k6
    generalize ActionTask.run envDisplay (c5.emit [Event.cmd (Cmd.delay 3000)]) [r, r, r] =
      c6 at t6 q6 i6 k6 ⊢
    -- home and the neutral emotion
    simp only [ActionTask.run, withExecutor, emit_trace, emit_idle_mode, t6, i6]
    exact ⟨by simp [SetEmotion, envDisplay], trivial⟩
  have hquiet : emotionsOf (withExecutor envDisplay ctrl0
      (tool_dog_defend.statements envDisplay) (defendSchedule r)).trace =
      [Emotion.shocked, Emotion.neutral] := by
    rw [withExecutor_quiet envDisplay (tool_dog_defend.statements envDisplay)
      (defendSchedule r) ctrl0 rfl rfl (by decide)
      (by simp [defendSchedule, ctrl0])]
    decide
  refine ⟨fun env c => rfl, by decide, by decide, by decide, by decide, ht.1, ?_, ht.2,
    hquiet⟩
  have ht := ht.1
  rw [ht]
  simp only [emotionsOf_append, emotionsOf_call, List.append_nil, List.nil_append]
  rfl

/-! ## MoveToPosition -/

/-- One step of `forEachServo`. -/
theorem forEachServo_eq (o : OttoF) (body : OttoF → Int → OttoF) :
    forEachServo o body =
      [0, 1, 2, 3].foldl (fun o i => if o.servo_pins_ i ≠ -1 then body o i else o) o := rfl

/-- C26: the otto-robotcu web surface has no branch for the command of the STOP button:
`otto_execute_web_action` returns with the controller unchanged, so the pending requests
stay queued and the next executor iteration runs the first of them, whereas the tool
`self.dog.stop` of the same variant leaves only a home request in the queue. -/
theorem Cu_web_dog_stop_unhandled (task_create_pass : Bool) (c : Cu.OttoController)
    (param1 param2 : Int) :
    Cu.otto_execute_web_action task_create_pass c "dog_stop" param1 param2 = some c ∧
      (Cu.otto_execute_web_action task_create_pass cuCtrlPending "dog_stop" param1
        param2).map (fun c => c.action_queue_) = some (some cuPending3) ∧
      (Cu.ActionTask.iter cuCtrlPending).trace = DogWalk 3 150 ++ Home ++ [Cmd.delay 20] ∧
      (Cu.tool_dog_stop task_create_pass cuCtrlPending).map (fun c => c.action_queue_) =
        some (some [{ action_type := Cu.ACTION_HOME, steps := 1, speed := 500, direction := 0,
                      amount := 0 }]) := by
  have h : ∀ c : Cu.OttoController,
      Cu.otto_execute_web_action task_create_pass c "dog_stop" param1 param2 = some c := by
    intro c
    unfold Cu.otto_execute_web_action
    have h1 : strstr "dog_stop" "walk_back" = false := by decide
    have h2 : strstr "dog_stop" "walk_forward" = false := by decide
    have h3 : strstr "dog_stop" "walk" = false := by decide
    have h4 : strstr "dog_stop" "turn_left" = false := by decide
    have h5 : strstr "dog_stop" "turn" = false := by decide
    have h6 : strstr "dog_stop" "turn_right" = false := by decide
    have h7 : strstr "dog_stop" "sit" = false := by decide
    have h8 : strstr "dog_stop" "lie" = false := by decide
    have h9 : strstr "dog_stop" "bow" = false := by decide
    have h10 : strstr "dog_stop" "jump" = false := by decide
    have h11 : strstr "dog_stop" "dance" = false := by decide
    have h12 : strstr "dog_stop" "wave" = false := by decide
    have h13 : strstr "dog_stop" "swing" = false := by decide
    have h14 : strstr "dog_stop" "stretch" = false := by decide
    have h15 : strstr "dog_stop" "home" = false := by decide
    simp only [h1, h2, h3, h4, h5, h6, h7, h8, h9, h10, h11, h12, h13, h14, h15,
      Bool.false_and, Bool.or_self, Bool.false_eq_true, if_false]
  refine ⟨h c, ?_, ?_, ?_⟩
  · rw [h]
    rfl
  · rfl
  · cases task_create_pass <;> rfl



/-- C28: for the command `dog_dance_4_feet` of the page, `otto_execute_web_action` of the
otto-robot variant takes the branch of `strstr(action, "dance")`, which comes first: whatever
the action codes, it does what it does for `dog_dance`, setting the happy emotion and
enqueueing one request with the code `ACTION_DOG_DANCE` and `(param1, param2)`; with the
codes of the controller's enum that kind is 9, not `ACTION_DOG_DANCE_4_FEET`. -/
theorem web_dance_4_feet_enqueues_dance (env : Env) (codes : WebActionCodes)
    (task_create_pass : Bool) (c : OttoController) (param1 param2 : Int) :
    otto_execute_web_action env codes task_create_pass c "dog_dance_4_feet" param1 param2 =
        webQueueAction task_create_pass (c.emit (SetEmotion env Emotion.happy))
          codes.ACTION_DOG_DANCE param1 param2 0 0 ∧
      otto_execute_web_action env codes task_create_pass c "dog_dance_4_feet" param1 param2 =
        otto_execute_web_action env codes task_create_pass c "dog_dance" param1 param2 ∧
      (otto_execute_web_action env enumCodes task_create_pass ctrl0 "dog_dance_4_feet" param1
        param2).map (fun c => c.action_queue_) =
        some (some [{ action_type := ACTION_DOG_DANCE, steps := param1, speed := param2,
                      direction := 0, amount := 0 }]) ∧
      ACTION_DOG_DANCE ≠ ACTION_DOG_DANCE_4_FEET := by
  have h : ∀ (codes : WebActionCodes) (c : OttoController) (action : String),
      action = "dog_dance_4_feet" ∨ action = "dog_dance" →
      otto_execute_web_action env codes task_create_pass c action param1 param2 =
        webQueueAction task_create_pass (c.emit (SetEmotion env Emotion.happy))
          codes.ACTION_DOG_DANCE param1 param2 0 0 := by
    intro codes c action ha
    have hn : ∀ needle ∈ ["walk_back", "walk_forward", "walk", "turn_left", "turn",
        "turn_right", "sit", "lie", "bow", "jump"], strstr action needle = false := by
      rcases ha with ha | ha <;> subst ha <;> decide
    have hd : strstr action "dance" = true := by
      rcases ha with ha | ha <;> subst ha <;> decide
    unfold otto_execute_web_action
    simp only [hn "walk_back" (by decide), hn "walk_forward" (by decide),
      hn "walk" (by decide), hn "turn_left" (by decide), hn "turn" (by decide),
      hn "turn_right" (by decide), hn "sit" (by decide), hn "lie" (by decide),
      hn "bow" (by decide), hn "jump" (by decide), hd,
      Bool.false_and, Bool.or_self, Bool.false_eq_true, if_false, if_true]
  refine ⟨h codes c _ (Or.inl rfl), ?_, ?_, by decide⟩
  · rw [h codes c _ (Or.inl rfl), h codes c _ (Or.inr rfl)]
  · rw [h enumCodes ctrl0 _ (Or.inl rfl)]
    cases task_create_pass <;> rfl

/-- C29: the constant `ACTION_HOME` of `otto_webserver.h` is 17, the value of `ACTION_BEND`
in the controller's enum, whose `ACTION_HOME` is 18; the other sixteen names agree.  The
request the web command `dog_home` enqueues makes the executor run `Bend`, a bow, and then
`Home`. -/
theorem Cu_web_home_code_is_bend (task_create_pass : Bool) (param1 param2 : Int) :
    Cu.Web.ACTION_HOME = Cu.ACTION_BEND ∧ Cu.Web.ACTION_HOME ≠ Cu.ACTION_HOME ∧
      [Cu.Web.ACTION_DOG_WALK, Cu.Web.ACTION_DOG_WALK_BACK, Cu.Web.ACTION_DOG_TURN_LEFT,
        Cu.Web.ACTION_DOG_TURN_RIGHT, Cu.Web.ACTION_DOG_SIT_DOWN, Cu.Web.ACTION_DOG_LIE_DOWN,
        Cu.Web.ACTION_DOG_JUMP, Cu.Web.ACTION_DOG_BOW, Cu.Web.ACTION_DOG_DANCE,
        Cu.Web.ACTION_DOG_WAVE_RIGHT_FOOT, Cu.Web.ACTION_DOG_DANCE_4_FEET,
        Cu.Web.ACTION_DOG_SWING, Cu.Web.ACTION_DOG_STRETCH, Cu.Web.ACTION_WALK,
        Cu.Web.ACTION_TURN, Cu.Web.ACTION_JUMP] =
      [Cu.ACTION_DOG_WALK, Cu.ACTION_DOG_WALK_BACK, Cu.ACTION_DOG_TURN_LEFT,
        Cu.ACTION_DOG_TURN_RIGHT, Cu.ACTION_DOG_SIT_DOWN, Cu.ACTION_DOG_LIE_DOWN,
        Cu.ACTION_DOG_JUMP, Cu.ACTION_DOG_BOW, Cu.ACTION_DOG_DANCE,
        Cu.ACTION_DOG_WAVE_RIGHT_FOOT, Cu.ACTION_DOG_DANCE_4_FEET, Cu.ACTION_DOG_SWING,
        Cu.ACTION_DOG_STRETCH, Cu.ACTION_WALK, Cu.ACTION_TURN, Cu.ACTION_JUMP] ∧
      (Cu.otto_execute_web_action task_create_pass cuCtrl0 "dog_home" param1 param2).map
        (fun c => c.action_queue_) = some (some [cuWebHome]) ∧
      Cu.ActionTask.dispatch cuWebHome = DogBow 500 ∧
      (Cu.ActionTask.iter { cuCtrl0 with action_queue_ := some [cuWebHome] }).trace =
        DogBow 500 ++ Home ++ [Cmd.delay 20] ∧
      DogBow 500 ≠ Home := by
  refine ⟨by decide, by decide, by decide, ?_, by decide, ?_, by decide⟩
  · have h : Cu.otto_execute_web_action task_create_pass cuCtrl0 "dog_home" param1 param2 =
        Cu.webQueueAction task_create_pass cuCtrl0 Cu.Web.ACTION_HOME 1 500 0 0 := by
      unfold Cu.otto_execute_web_action
      have h1 : strstr "dog_home" "walk_back" = false := by decide
      have h2 : strstr "dog_home" "walk_forward" = false := by decide
      have h3 : strstr "dog_home" "walk" = false := by decide
      have h4 : strstr "dog_home" "turn_left" = false := by decide
      have h5 : strstr "dog_home" "turn" = false := by decide
      have h6 : strstr "dog_home" "turn_right" = false := by decide
      have h7 : strstr "dog_home" "sit" = false := by decide
      have h8 : strstr "dog_home" "lie" = false := by decide
      have h9 : strstr "dog_home" "bow" = false := by decide
      have h10 : strstr "dog_home" "jump" = false := by decide
      have h11 : strstr "dog_home" "dance" = false := by decide
      have h12 : strstr "dog_home" "wave" = false := by decide
      have h13 : strstr "dog_home" "swing" = false := by decide
      have h14 : strstr "dog_home" "stretch" = false := by decide
      have h15 : strstr "dog_home" "home" = true := by decide
      simp only [h1, h2, h3, h4, h5, h6, h7, h8, h9, h10, h11, h12, h13, h14, h15,
        Bool.false_and, Bool.or_self, Bool.false_eq_true, if_false, if_true]
    rw [h]
    rfl
  · rfl


/-! ## The executor of the otto-robotcu variant -/

theorem Cu_run_ends_Home_resting (o : Otto) (xs : List Cmd) :
    (o.run (xs ++ Home ++ [Cmd.delay 20])).is_otto_resting_ = true := by
  simp only [Home, StandUp, ← List.append_assoc, Otto_run_append]
  rfl

/-- C30: for every dequeued request, the executor iteration of the otto-robotcu variant
issues `Home`, then the 20 ms delay, when the action is `ACTION_HOME`, and the calls of the
`switch` (none for an unrecognised code), then `Home`, then the delay, otherwise; the last
nominal angle it writes to each of the four legs is 90, and it leaves the rest flag set. -/
theorem Cu_iteration_ends_home (c : Cu.OttoController) (params : OttoActionParams) :
    (Cu.ActionTask.received c params).trace =
        c.trace ++
          (if params.action_type = Cu.ACTION_HOME then Home ++ [Cmd.delay 20]
            else Cu.ActionTask.dispatch params ++ Home ++ [Cmd.delay 20]) ∧
      finalPose
          (if params.action_type = Cu.ACTION_HOME then Home ++ [Cmd.delay 20]
            else Cu.ActionTask.dispatch params ++ Home ++ [Cmd.delay 20]) =
        (some 90, some 90, some 90, some 90) ∧
      (Cu.ActionTask.received c params).otto_.is_otto_resting_ = true := by
  have hd : Cu.ActionTask.dispatch params ++ Cu.ActionTask.returnHome params =
      (if params.action_type = Cu.ACTION_HOME then Home
        else Cu.ActionTask.dispatch params ++ Home) := by
    by_cases h : params.action_type = Cu.ACTION_HOME
    · have hdis : Cu.ActionTask.dispatch params = Home := by
        unfold Cu.ActionTask.dispatch
        rw [h]
        rfl
      rw [if_pos h, hdis, Cu.ActionTask.returnHome, if_neg (not_not.mpr h), List.append_nil]
    · rw [if_neg h, Cu.ActionTask.returnHome, if_pos h]
  have ht : (Cu.ActionTask.received c params).trace =
      c.trace ++ (Cu.ActionTask.dispatch params ++ Cu.ActionTask.returnHome params ++
        [Cmd.delay 20]) := by
    simp only [Cu.ActionTask.received, Cu.OttoController.emit, List.append_assoc]
  have ho : (Cu.ActionTask.received c params).otto_ =
      c.otto_.run (Cu.ActionTask.dispatch params ++ Cu.ActionTask.returnHome params ++
        [Cmd.delay 20]) := by
    simp only [Cu.ActionTask.received, Cu.OttoController.emit, Otto_run_append]
  refine ⟨?_, ?_, ?_⟩
  · rw [ht, hd]
    split_ifs <;> simp only [List.append_assoc]
  · split_ifs
    · exact finalPose_pre_delay _ _ _ finalPose_StandUp
    · exact finalPose_pre_delay _ _ _ (finalPose_ends_StandUp _)
  · rw [ho, hd]
    split_ifs
    · exact Cu_run_ends_Home_resting c.otto_ []
    · exact Cu_run_ends_Home_resting c.otto_ _

/-! ## The defend sequence on both command surfaces -/

end OttoRobot
